import Mathlib

/-!
RTCM framing, dispatch and bandwidth sampling (`src/GPS/RTCMMavlink.cc`)

A shallow embedding of the three member functions of `RTCMMavlink`:
`RTCMDataUpdate` (framing of one blob into `GPS_RTCM_DATA` messages),
`_sendMessageToVehicle` (dispatch of one message to the vehicles) and
`_calculateBandwith` (windowed byte-rate sampler).

Conventions of the embedding.
* `uint8_t` values are natural numbers reduced `% 256` at every assignment.
* `qsizetype` sizes and offsets are natural numbers: a size is never negative
  and `start` never exceeds `data.size()`, so no wrap can occur on them.
* The byte accumulator and the product of line 119 are 64-bit signed
  integers: every result is reduced to that range (`toInt64`), the division
  truncates toward zero, and the rate is reduced to a 32-bit `int`.
* The clock, the vehicle list and the RTK fact group are collaborators that
  are not part of the file; what they return is an argument of the function
  that asks them. The clock is read twice by the sampler, by `elapsed()` and
  by `restart()`; the two readings are separate arguments (`Clock`).
-/

namespace GPS

/-! ## Data model -/

/-- Modelled from the spec: the MAVLink header defining
`MAVLINK_MSG_GPS_RTCM_DATA_FIELD_DATA_LEN` is not among the sources; the spec
gives the capacity of one frame as `MAX_FRAME_PAYLOAD = 180`. -/
def MAVLINK_MSG_GPS_RTCM_DATA_FIELD_DATA_LEN : Nat := 180

/-- Line 45: `static constexpr qsizetype maxMessageLength`. -/
def maxMessageLength : Nat := MAVLINK_MSG_GPS_RTCM_DATA_FIELD_DATA_LEN

/-- The message `mavlink_gps_rtcm_data_t`: two `uint8_t` fields and the
payload buffer `uint8_t data[180]`. -/
structure mavlink_gps_rtcm_data_t where
  flags : Nat
  len : Nat
  data : List UInt8
deriving DecidableEq, Repr

/-- Line 43: `mavlink_gps_rtcm_data_t gpsRtcmData{}` (value initialisation,
every field and every payload byte is zero). -/
def gpsRtcmDataInit : mavlink_gps_rtcm_data_t :=
  { flags := 0, len := 0, data := List.replicate maxMessageLength 0 }

/-- The effect of `memcpy(dst, src, n)` on the destination buffer: its first
`n` bytes become the first `n` bytes of `src`, the others are kept. -/
def memcpy (dst src : List UInt8) (n : Nat) : List UInt8 :=
  src.take n ++ dst.drop n

/-- The link handed out by `primaryLink().lock()`, known by its channel. -/
structure LinkInterface where
  mavlinkChannel : Nat
deriving DecidableEq, Repr

/-- A vehicle as far as the dispatch looks at it: `primaryLink` is the result
of `vehicleLinkManager()->primaryLink().lock()`, `none` for a null pointer. -/
structure Vehicle where
  id : Nat
  primaryLink : Option LinkInterface
deriving DecidableEq, Repr

/-- One call of `sendMessageOnLinkThreadSafe`: the index `i` of the loop, the
vehicle, the link, and the message that was encoded for it. -/
structure Send where
  index : Nat
  vehicle : Vehicle
  link : LinkInterface
  message : mavlink_gps_rtcm_data_t
deriving DecidableEq, Repr

/-- The members of the object. `_bandwidthTimer` is the `QElapsedTimer`:
`none` when invalid, `some t` when started at clock reading `t` (ms).
The header declaring the members is not among the sources:
`_bandwidthByteCounter` has the type of the byte counts added to it,
`qsizetype` (line 108), a 64-bit signed integer, and the width of
`_sequenceId` is an argument (`seqBits`) of `RTCMDataUpdate`. -/
structure RTCMMavlink where
  _sequenceId : Nat
  _bandwidthByteCounter : Int
  _bandwidthTimer : Option Int
deriving DecidableEq, Repr

/-- The two readings of the monotonic clock (ms) made by one call of the
sampler: `atElapsed` by `_bandwidthTimer.elapsed()` (line 116) and
`atRestart` by `_bandwidthTimer.restart()` (line 129), when it is reached. -/
structure Clock where
  atElapsed : Int
  atRestart : Int
deriving DecidableEq, Repr

namespace RTCMMavlink

/-! ## `_calculateBandwith` -/

/-- Conversion of an integer to `int` (32 bits, two's complement), as done by
the initialisation `const int bytesPerSecond = ...` of a `qint64` value. -/
def toInt32 (x : Int) : Int := (x + 2 ^ 31) % 2 ^ 32 - 2 ^ 31

/-- The value of a 64-bit signed integer (`qsizetype`, `qint64`) holding the
result `x` of an addition or a multiplication: two's complement reduction. -/
def toInt64 (x : Int) : Int := (x + 2 ^ 63) % 2 ^ 64 - 2 ^ 63

/-- Lines 108-132. `now` holds the readings of the monotonic clock during
the call, `rtkFactGroup` tells whether the `qobject_cast` of line 122 yields
a non-null pointer, `bytes` is the `qsizetype` argument (a size, so not
negative). The sum of line 114 and the product of line 119 are 64-bit signed,
the division of line 119 truncates toward zero, and its result is converted
to `int`. The second component is the value given to `setRawValue`, if that
call is made. -/
def _calculateBandwith (self : RTCMMavlink) (now : Clock) (rtkFactGroup : Bool)
    (bytes : Nat) : RTCMMavlink × Option Int :=
  match self._bandwidthTimer with
  | none => (self, none)
  | some windowStart =>
    let counter : Int := toInt64 (self._bandwidthByteCounter + (bytes : Int))
    let elapsed : Int := now.atElapsed - windowStart
    if elapsed > 1000 then
      let bytesPerSecond : Int := toInt32 (Int.tdiv (toInt64 (counter * 1000)) elapsed)
      ({ self with _bandwidthTimer := some now.atRestart, _bandwidthByteCounter := 0 },
        if rtkFactGroup then some bytesPerSecond else none)
    else
      ({ self with _bandwidthByteCounter := counter }, none)

/-! ## `_sendMessageToVehicle` -/

/-- Lines 82-105: the loop over the vehicle list from index `i` on; an entry
is `none` when `qobject_cast<Vehicle*>` gives a null pointer. -/
def sendLoop (data : mavlink_gps_rtcm_data_t) : Nat → List (Option Vehicle) → List Send
  | _, [] => []
  | i, none :: rest => sendLoop data (i + 1) rest
  | i, some vehicle :: rest =>
    match vehicle.primaryLink with
    | some sharedLink =>
      { index := i, vehicle := vehicle, link := sharedLink, message := data } ::
        sendLoop data (i + 1) rest
    | none => sendLoop data (i + 1) rest

/-- Lines 72-106. The result is the sequence of sends performed. -/
def _sendMessageToVehicle (vehicles : List (Option Vehicle))
    (data : mavlink_gps_rtcm_data_t) : List Send :=
  if vehicles.length = 0 then []
  else sendLoop data 0 vehicles

/-! ## `RTCMDataUpdate` -/

/-- One call of `_sendMessageToVehicle` made by `RTCMDataUpdate`: the frame
handed over and the sends it led to. -/
structure Dispatch where
  message : mavlink_gps_rtcm_data_t
  sends : List Send
deriving DecidableEq, Repr

/-- The local variables of the fragmentation loop (lines 52-53, 43). -/
structure LoopState where
  fragmentId : Nat
  start : Nat
  gpsRtcmData : mavlink_gps_rtcm_data_t
deriving DecidableEq, Repr

/-- Lines 54-66: the `while (start < data.size())` loop. Returns the local
variables at loop exit and the dispatches made, in order. -/
def whileLoop (sequenceId : Nat) (vehicles : List (Option Vehicle)) (data : List UInt8)
    (s : LoopState) : LoopState × List Dispatch :=
  if _h : s.start < data.length then
    let flags0 : Nat := 0x01
    let flags1 : Nat := (flags0 ||| (s.fragmentId <<< 1)) % 256
    let fragmentId : Nat := (s.fragmentId + 1) % 256
    let flags2 : Nat := (flags1 ||| ((sequenceId &&& 0x1F) <<< 3)) % 256
    let length : Nat := min (data.length - s.start) maxMessageLength
    let gpsRtcmData : mavlink_gps_rtcm_data_t :=
      { flags := flags2, len := length % 256,
        data := memcpy s.gpsRtcmData.data (data.drop s.start) length }
    let sends := _sendMessageToVehicle vehicles gpsRtcmData
    let r := whileLoop sequenceId vehicles data
      { fragmentId := fragmentId, start := s.start + length, gpsRtcmData := gpsRtcmData }
    (r.1, { message := gpsRtcmData, sends := sends } :: r.2)
  else
    (s, [])
termination_by data.length - s.start
decreasing_by
  simp only [maxMessageLength, MAVLINK_MSG_GPS_RTCM_DATA_FIELD_DATA_LEN]
  omega

/-- What one call of `RTCMDataUpdate` does: the members afterwards, the rate
given to the fact group (if any), and the dispatches in order. -/
structure Update where
  self : RTCMMavlink
  rate : Option Int
  dispatches : List Dispatch
deriving DecidableEq, Repr

/-- Lines 34-70. `seqBits` is the width of the unsigned member `_sequenceId`;
`now` and `rtkFactGroup` are as in `_calculateBandwith`; `vehicles` is the
list returned by `MultiVehicleManager::instance()->vehicles()`, taken to be
the same for every frame of the blob. -/
def RTCMDataUpdate (seqBits : Nat) (self : RTCMMavlink) (now : Clock) (rtkFactGroup : Bool)
    (vehicles : List (Option Vehicle)) (data : List UInt8) : Update :=
  let bw := _calculateBandwith self now rtkFactGroup data.length
  let self1 := bw.1
  let dispatches : List Dispatch :=
    if data.length < maxMessageLength then
      let gpsRtcmData : mavlink_gps_rtcm_data_t :=
        { flags := ((self1._sequenceId &&& 0x1F) <<< 3) % 256,
          len := data.length % 256,
          data := memcpy gpsRtcmDataInit.data data data.length }
      [{ message := gpsRtcmData, sends := _sendMessageToVehicle vehicles gpsRtcmData }]
    else
      (whileLoop self1._sequenceId vehicles data
        { fragmentId := 0, start := 0, gpsRtcmData := gpsRtcmDataInit }).2
  { self := { self1 with _sequenceId := (self1._sequenceId + 1) % 2 ^ seqBits },
    rate := bw.2,
    dispatches := dispatches }

/-- The frames emitted by one call, in emission order. -/
def Update.frames (u : Update) : List mavlink_gps_rtcm_data_t :=
  u.dispatches.map Dispatch.message

/-- The valid payload bytes `data[0..len)` of a frame. -/
def payload (m : mavlink_gps_rtcm_data_t) : List UInt8 :=
  m.data.take m.len

/-- Bit 0 of the flags byte. -/
def fragmentedBit (m : mavlink_gps_rtcm_data_t) : Nat := m.flags % 2

/-- Bits 1-2 of the flags byte. -/
def fragmentField (m : mavlink_gps_rtcm_data_t) : Nat := (m.flags >>> 1) % 4

/-- Bits 3-7 of the flags byte. -/
def sequenceField (m : mavlink_gps_rtcm_data_t) : Nat := (m.flags >>> 3) % 32

/-- The flags byte computed by lines 55-57 from the fragment counter and the
sequence counter, with the `uint8_t` truncation of each assignment. -/
def fragmentFlags (fragmentId sequenceId : Nat) : Nat :=
  ((0x01 ||| (fragmentId <<< 1)) % 256 ||| ((sequenceId &&& 0x1F) <<< 3)) % 256

/-- The number of iterations of the loop over `n` remaining bytes. -/
def frameCount (n : Nat) : Nat := (n + (maxMessageLength - 1)) / maxMessageLength

/-- The accumulator after the sums of line 114 for successive byte counts. -/
def accumulate (counter : Int) : List Nat → Int
  | [] => counter
  | bytes :: rest => accumulate (toInt64 (counter + (bytes : Int))) rest

/-- A run of `_calculateBandwith` over successive arrivals
`(now, rtkFactGroup, bytes)`: the members afterwards and what each arrival
published. -/
def sampleAll (self : RTCMMavlink) :
    List (Clock × Bool × Nat) → RTCMMavlink × List (Option Int)
  | [] => (self, [])
  | a :: rest =>
    let r := _calculateBandwith self a.1 a.2.1 a.2.2
    let rs := sampleAll r.1 rest
    (rs.1, r.2 :: rs.2)

/-- One blob as it arrives, with what the collaborators answer during its
processing. -/
structure Arrival where
  now : Clock
  rtkFactGroup : Bool
  vehicles : List (Option Vehicle)
  data : List UInt8

/-- The members after a sequence of calls of `RTCMDataUpdate`. -/
def processBlobs (seqBits : Nat) (self : RTCMMavlink) : List Arrival → RTCMMavlink
  | [] => self
  | a :: rest =>
    processBlobs seqBits
      (RTCMDataUpdate seqBits self a.now a.rtkFactGroup a.vehicles a.data).self rest

/-- Whether an entry of the vehicle list resolves to a transport. -/
def resolved (v : Option Vehicle) : Bool :=
  match v with
  | some vehicle => vehicle.primaryLink.isSome
  | none => false

/-- The send made for entry `v` at position `i`, if it resolves. -/
def sendFor (data : mavlink_gps_rtcm_data_t) (i : Nat) (v : Option Vehicle) : Option Send :=
  match v with
  | some vehicle =>
    match vehicle.primaryLink with
    | some sharedLink =>
      some { index := i, vehicle := vehicle, link := sharedLink, message := data }
    | none => none
  | none => none

/-- The sends performed by one call, in the order they are made. -/
def Update.sends (u : Update) : List Send :=
  (u.dispatches.map Dispatch.sends).flatten

/-! ## The fragmentation loop -/

theorem maxMessageLength_eq : maxMessageLength = 180 := rfl

theorem whileLoop_done (sequenceId : Nat) (vehicles : List (Option Vehicle))
    (data : List UInt8) (s : LoopState) (h : ¬ s.start < data.length) :
    whileLoop sequenceId vehicles data s = (s, []) := by
  rw [whileLoop]
  simp [h]

theorem whileLoop_step (sequenceId : Nat) (vehicles : List (Option Vehicle))
    (data : List UInt8) (s : LoopState) (h : s.start < data.length) :
    whileLoop sequenceId vehicles data s =
      ((whileLoop sequenceId vehicles data
          { fragmentId := (s.fragmentId + 1) % 256,
            start := s.start + min (data.length - s.start) maxMessageLength,
            gpsRtcmData :=
              { flags := fragmentFlags s.fragmentId sequenceId,
                len := min (data.length - s.start) maxMessageLength % 256,
                data := memcpy s.gpsRtcmData.data (data.drop s.start)
                  (min (data.length - s.start) maxMessageLength) } }).1,
        { message :=
            { flags := fragmentFlags s.fragmentId sequenceId,
              len := min (data.length - s.start) maxMessageLength % 256,
              data := memcpy s.gpsRtcmData.data (data.drop s.start)
                (min (data.length - s.start) maxMessageLength) },
          sends := _sendMessageToVehicle vehicles
            { flags := fragmentFlags s.fragmentId sequenceId,
              len := min (data.length - s.start) maxMessageLength % 256,
              data := memcpy s.gpsRtcmData.data (data.drop s.start)
                (min (data.length - s.start) maxMessageLength) } } ::
        (whileLoop sequenceId vehicles data
          { fragmentId := (s.fragmentId + 1) % 256,
            start := s.start + min (data.length - s.start) maxMessageLength,
            gpsRtcmData :=
              { flags := fragmentFlags s.fragmentId sequenceId,
                len := min (data.length - s.start) maxMessageLength % 256,
                data := memcpy s.gpsRtcmData.data (data.drop s.start)
                  (min (data.length - s.start) maxMessageLength) } }).2) := by
  rw [whileLoop]
  simp only [h, dite_true, fragmentFlags]

theorem frameCount_zero : frameCount 0 = 0 := by
  simp [frameCount, maxMessageLength, MAVLINK_MSG_GPS_RTCM_DATA_FIELD_DATA_LEN]

theorem frameCount_step (n start : Nat) (h : start < n) :
    frameCount (n - (start + min (n - start) maxMessageLength)) + 1 = frameCount (n - start) := by
  simp only [frameCount, maxMessageLength, MAVLINK_MSG_GPS_RTCM_DATA_FIELD_DATA_LEN]
  omega

/-- The loop makes `frameCount` dispatches for the bytes that remain. -/
theorem whileLoop_length (sequenceId : Nat) (vehicles : List (Option Vehicle))
    (data : List UInt8) :
    ∀ (n : Nat) (s : LoopState), data.length - s.start = n →
      (whileLoop sequenceId vehicles data s).2.length = frameCount (data.length - s.start) := by
  intro n
  induction n using Nat.strong_induction_on with
  | _ n ih =>
    intro s hn
    by_cases h : s.start < data.length
    · rw [whileLoop_step _ _ _ _ h]
      simp only [List.length_cons]
      rw [ih _ _ _ rfl]
      · exact frameCount_step _ _ h
      · simp only [maxMessageLength, MAVLINK_MSG_GPS_RTCM_DATA_FIELD_DATA_LEN]
        omega
    · rw [whileLoop_done _ _ _ _ h]
      have : data.length - s.start = 0 := by omega
      rw [this, frameCount_zero]
      rfl

/-- The flags bytes of the dispatched frames, in order: the fragment counter
runs from its initial value, wrapping at 256. -/
theorem whileLoop_flags (sequenceId : Nat) (vehicles : List (Option Vehicle))
    (data : List UInt8) :
    ∀ (n : Nat) (s : LoopState), data.length - s.start = n → s.fragmentId < 256 →
      (whileLoop sequenceId vehicles data s).2.map (fun d => d.message.flags) =
        (List.range (frameCount (data.length - s.start))).map
          (fun k => fragmentFlags ((s.fragmentId + k) % 256) sequenceId) := by
  intro n
  induction n using Nat.strong_induction_on with
  | _ n ih =>
    intro s hn hf
    by_cases h : s.start < data.length
    · rw [whileLoop_step _ _ _ _ h, ← frameCount_step _ _ h, List.range_succ_eq_map]
      simp only [List.map_cons, List.map_map]
      rw [ih _ _ _ rfl]
      · simp only [Nat.add_zero, Nat.mod_eq_of_lt hf]
        congr 1
        apply List.map_congr_left
        intro k _
        simp only [Function.comp]
        congr 1
        omega
      · exact Nat.mod_lt _ (by decide)
      · simp only [maxMessageLength, MAVLINK_MSG_GPS_RTCM_DATA_FIELD_DATA_LEN]
        omega
    · rw [whileLoop_done _ _ _ _ h]
      have : data.length - s.start = 0 := by omega
      rw [this, frameCount_zero]
      rfl

/-- The length fields of the dispatched frames, in order. -/
theorem whileLoop_len (sequenceId : Nat) (vehicles : List (Option Vehicle))
    (data : List UInt8) :
    ∀ (n : Nat) (s : LoopState), data.length - s.start = n →
      (whileLoop sequenceId vehicles data s).2.map (fun d => d.message.len) =
        (List.range (frameCount (data.length - s.start))).map
          (fun k => min (data.length - (s.start + k * maxMessageLength)) maxMessageLength) := by
  intro n
  induction n using Nat.strong_induction_on with
  | _ n ih =>
    intro s hn
    by_cases h : s.start < data.length
    · rw [whileLoop_step _ _ _ _ h, ← frameCount_step _ _ h, List.range_succ_eq_map]
      simp only [List.map_cons, List.map_map]
      rw [ih _ _ _ rfl]
      · congr 1
        · simp only [maxMessageLength, MAVLINK_MSG_GPS_RTCM_DATA_FIELD_DATA_LEN]
          omega
        · apply List.map_congr_left
          intro k hk
          rw [List.mem_range] at hk
          simp only [Function.comp, frameCount, maxMessageLength,
            MAVLINK_MSG_GPS_RTCM_DATA_FIELD_DATA_LEN] at hk ⊢
          omega
      · simp only [maxMessageLength, MAVLINK_MSG_GPS_RTCM_DATA_FIELD_DATA_LEN]
        omega
    · rw [whileLoop_done _ _ _ _ h]
      have : data.length - s.start = 0 := by omega
      rw [this, frameCount_zero]
      rfl

/-- The valid bytes of the frame built by one iteration are the next bytes
of the blob. -/
theorem payload_step (buf data : List UInt8) (flags start : Nat) :
    payload
        { flags := flags,
          len := min (data.length - start) maxMessageLength % 256,
          data := memcpy buf (data.drop start) (min (data.length - start) maxMessageLength) } =
      (data.drop start).take (min (data.length - start) maxMessageLength) := by
  have hlt : min (data.length - start) maxMessageLength % 256 =
      min (data.length - start) maxMessageLength := by
    simp only [maxMessageLength, MAVLINK_MSG_GPS_RTCM_DATA_FIELD_DATA_LEN]
    omega
  simp only [payload, memcpy, hlt]
  rw [List.take_append_of_le_length]
  · rw [List.take_take, Nat.min_self]
  · rw [List.length_take, List.length_drop]
    omega

/-- The valid bytes of the dispatched frames, concatenated in order, are the
bytes of the blob from `start` on. -/
theorem whileLoop_payload (sequenceId : Nat) (vehicles : List (Option Vehicle))
    (data : List UInt8) :
    ∀ (n : Nat) (s : LoopState), data.length - s.start = n →
      ((whileLoop sequenceId vehicles data s).2.map (fun d => payload d.message)).flatten =
        data.drop s.start := by
  intro n
  induction n using Nat.strong_induction_on with
  | _ n ih =>
    intro s hn
    by_cases h : s.start < data.length
    · rw [whileLoop_step _ _ _ _ h]
      simp only [List.map_cons, List.flatten_cons]
      rw [ih _ _ _ rfl, payload_step]
      · rw [← List.drop_drop, List.take_append_drop]
      · simp only [maxMessageLength, MAVLINK_MSG_GPS_RTCM_DATA_FIELD_DATA_LEN]
        omega
    · rw [whileLoop_done _ _ _ _ h]
      have : data.length ≤ s.start := by omega
      simp [List.drop_eq_nil_of_le this]

/-! ## The flags byte -/

set_option maxRecDepth 1000000 in
/-- The three fields of the flags byte of a fragment, for every value of the
8-bit fragment counter and every 5-bit sequence value. -/
theorem flags_fields_table :
    ∀ f, f < 256 → ∀ q, q < 32 →
      ((0x01 ||| (f <<< 1)) % 256 ||| (q <<< 3)) % 256 % 2 = 1 ∧
      ((((0x01 ||| (f <<< 1)) % 256 ||| (q <<< 3)) % 256) >>> 1) % 4 = f % 4 ∧
      ((((0x01 ||| (f <<< 1)) % 256 ||| (q <<< 3)) % 256) >>> 3) % 32 = q ||| (f / 4 % 32) := by
  decide

theorem and_0x1F (sequenceId : Nat) : sequenceId &&& 0x1F = sequenceId % 32 :=
  Nat.and_pow_two_sub_one_eq_mod sequenceId 5

theorem fragmentFlags_fields (f sequenceId : Nat) (hf : f < 256) :
    fragmentFlags f sequenceId % 2 = 1 ∧
    (fragmentFlags f sequenceId >>> 1) % 4 = f % 4 ∧
    (fragmentFlags f sequenceId >>> 3) % 32 = sequenceId % 32 ||| (f / 4 % 32) := by
  have h := flags_fields_table f hf (sequenceId % 32) (Nat.mod_lt _ (by decide))
  simpa only [fragmentFlags, and_0x1F] using h

/-- The flags byte of the unfragmented path (line 48) is not truncated. -/
theorem single_flags (sequenceId : Nat) :
    ((sequenceId &&& 0x1F) <<< 3) % 256 = (sequenceId &&& 0x1F) <<< 3 ∧
    ((sequenceId &&& 0x1F) <<< 3) % 2 = 0 ∧
    (((sequenceId &&& 0x1F) <<< 3) >>> 1) % 4 = 0 ∧
    (((sequenceId &&& 0x1F) <<< 3) >>> 3) % 32 = sequenceId % 32 := by
  rw [and_0x1F, Nat.shiftLeft_eq, Nat.shiftRight_eq_div_pow, Nat.shiftRight_eq_div_pow]
  have : sequenceId % 32 < 32 := Nat.mod_lt _ (by decide)
  omega

/-! ## `_calculateBandwith`: the three paths -/

theorem _calculateBandwith_invalid (self : RTCMMavlink) (now : Clock) (rtkFactGroup : Bool)
    (bytes : Nat) (ht : self._bandwidthTimer = none) :
    _calculateBandwith self now rtkFactGroup bytes = (self, none) := by
  simp only [_calculateBandwith, ht]

theorem _calculateBandwith_within (self : RTCMMavlink) (now : Clock) (rtkFactGroup : Bool)
    (bytes : Nat) (windowStart : Int) (ht : self._bandwidthTimer = some windowStart)
    (he : now.atElapsed - windowStart ≤ 1000) :
    _calculateBandwith self now rtkFactGroup bytes =
      ({ self with
          _bandwidthByteCounter := toInt64 (self._bandwidthByteCounter + (bytes : Int)) },
        none) := by
  have h1 : ¬ (now.atElapsed - windowStart > 1000) := Int.not_lt.mpr he
  simp only [_calculateBandwith, ht, h1, if_false]

theorem _calculateBandwith_window (self : RTCMMavlink) (now : Clock) (rtkFactGroup : Bool)
    (bytes : Nat) (windowStart : Int) (ht : self._bandwidthTimer = some windowStart)
    (he : now.atElapsed - windowStart > 1000) :
    _calculateBandwith self now rtkFactGroup bytes =
      ({ self with _bandwidthTimer := some now.atRestart, _bandwidthByteCounter := 0 },
        if rtkFactGroup then
          some (toInt32 (Int.tdiv
            (toInt64 (toInt64 (self._bandwidthByteCounter + (bytes : Int)) * 1000))
            (now.atElapsed - windowStart)))
        else none) := by
  simp only [_calculateBandwith, ht, he, if_true]

/-! ## `RTCMDataUpdate`: the frames of one blob -/

theorem _calculateBandwith_sequenceId (self : RTCMMavlink) (now : Clock) (rtkFactGroup : Bool)
    (bytes : Nat) :
    (_calculateBandwith self now rtkFactGroup bytes).1._sequenceId = self._sequenceId := by
  cases ht : self._bandwidthTimer with
  | none => rw [_calculateBandwith_invalid _ _ _ _ ht]
  | some windowStart =>
    by_cases he : now.atElapsed - windowStart > 1000
    · rw [_calculateBandwith_window _ _ _ _ _ ht he]
    · rw [_calculateBandwith_within _ _ _ _ _ ht (Int.not_lt.mp he)]

/-- The frames of a blob shorter than the capacity: one frame. -/
theorem frames_single (seqBits : Nat) (self : RTCMMavlink) (now : Clock) (rtkFactGroup : Bool)
    (vehicles : List (Option Vehicle)) (data : List UInt8)
    (h : data.length < maxMessageLength) :
    (RTCMDataUpdate seqBits self now rtkFactGroup vehicles data).frames =
      [{ flags := ((self._sequenceId &&& 0x1F) <<< 3) % 256,
         len := data.length % 256,
         data := memcpy gpsRtcmDataInit.data data data.length }] := by
  simp only [RTCMDataUpdate, Update.frames, h, if_true, List.map_cons, List.map_nil,
    _calculateBandwith_sequenceId]

/-- The frames of a blob that fills the capacity: those of the loop. -/
theorem frames_loop (seqBits : Nat) (self : RTCMMavlink) (now : Clock) (rtkFactGroup : Bool)
    (vehicles : List (Option Vehicle)) (data : List UInt8)
    (h : maxMessageLength ≤ data.length) :
    (RTCMDataUpdate seqBits self now rtkFactGroup vehicles data).frames =
      (whileLoop self._sequenceId vehicles data
        { fragmentId := 0, start := 0, gpsRtcmData := gpsRtcmDataInit }).2.map
        Dispatch.message := by
  have h1 : ¬ data.length < maxMessageLength := Nat.not_lt.mpr h
  simp only [RTCMDataUpdate, Update.frames, h1, if_false, _calculateBandwith_sequenceId]

theorem frames_loop_length (seqBits : Nat) (self : RTCMMavlink) (now : Clock)
    (rtkFactGroup : Bool) (vehicles : List (Option Vehicle)) (data : List UInt8)
    (h : maxMessageLength ≤ data.length) :
    (RTCMDataUpdate seqBits self now rtkFactGroup vehicles data).frames.length =
      frameCount data.length := by
  rw [frames_loop _ _ _ _ _ _ h, List.length_map, whileLoop_length _ _ _ _ _ rfl]
  rfl

theorem frames_loop_flags (seqBits : Nat) (self : RTCMMavlink) (now : Clock)
    (rtkFactGroup : Bool) (vehicles : List (Option Vehicle)) (data : List UInt8)
    (h : maxMessageLength ≤ data.length) :
    (RTCMDataUpdate seqBits self now rtkFactGroup vehicles data).frames.map
        (fun m => m.flags) =
      (List.range (frameCount data.length)).map
        (fun k => fragmentFlags (k % 256) self._sequenceId) := by
  rw [frames_loop _ _ _ _ _ _ h, List.map_map]
  have h2 := whileLoop_flags self._sequenceId vehicles data _
    { fragmentId := 0, start := 0, gpsRtcmData := gpsRtcmDataInit } rfl (by decide)
  simp only [Nat.zero_add, Nat.sub_zero] at h2
  exact h2

theorem frames_loop_len (seqBits : Nat) (self : RTCMMavlink) (now : Clock)
    (rtkFactGroup : Bool) (vehicles : List (Option Vehicle)) (data : List UInt8)
    (h : maxMessageLength ≤ data.length) :
    (RTCMDataUpdate seqBits self now rtkFactGroup vehicles data).frames.map
        (fun m => m.len) =
      (List.range (frameCount data.length)).map
        (fun k => min (data.length - k * maxMessageLength) maxMessageLength) := by
  rw [frames_loop _ _ _ _ _ _ h, List.map_map]
  have h2 := whileLoop_len self._sequenceId vehicles data _
    { fragmentId := 0, start := 0, gpsRtcmData := gpsRtcmDataInit } rfl
  simp only [Nat.zero_add, Nat.sub_zero] at h2
  exact h2

theorem frames_loop_payload (seqBits : Nat) (self : RTCMMavlink) (now : Clock)
    (rtkFactGroup : Bool) (vehicles : List (Option Vehicle)) (data : List UInt8)
    (h : maxMessageLength ≤ data.length) :
    ((RTCMDataUpdate seqBits self now rtkFactGroup vehicles data).frames.map payload).flatten =
      data := by
  rw [frames_loop _ _ _ _ _ _ h, List.map_map]
  have h2 := whileLoop_payload self._sequenceId vehicles data _
    { fragmentId := 0, start := 0, gpsRtcmData := gpsRtcmDataInit } rfl
  simpa using h2

/-- The flags byte of the frame at position `i` of a fragmented blob. -/
theorem frames_loop_flags_at (seqBits : Nat) (self : RTCMMavlink) (now : Clock)
    (rtkFactGroup : Bool) (vehicles : List (Option Vehicle)) (data : List UInt8)
    (h : maxMessageLength ≤ data.length) (i : Nat) (hi : i < frameCount data.length) :
    ((RTCMDataUpdate seqBits self now rtkFactGroup vehicles data).frames[i]?).map
        (fun m => m.flags) =
      some (fragmentFlags (i % 256) self._sequenceId) := by
  rw [← List.getElem?_map, frames_loop_flags _ _ _ _ _ _ h, List.getElem?_map,
    List.getElem?_range hi]
  rfl

/-- Every frame of a fragmented blob has the flags byte of some position. -/
theorem frames_loop_flags_mem (seqBits : Nat) (self : RTCMMavlink) (now : Clock)
    (rtkFactGroup : Bool) (vehicles : List (Option Vehicle)) (data : List UInt8)
    (h : maxMessageLength ≤ data.length) (m : mavlink_gps_rtcm_data_t)
    (hm : m ∈ (RTCMDataUpdate seqBits self now rtkFactGroup vehicles data).frames) :
    ∃ k, m.flags = fragmentFlags (k % 256) self._sequenceId := by
  have h1 : m.flags ∈ (RTCMDataUpdate seqBits self now rtkFactGroup vehicles data).frames.map
      (fun m => m.flags) := List.mem_map_of_mem _ hm
  rw [frames_loop_flags _ _ _ _ _ _ h, List.mem_map] at h1
  obtain ⟨k, _, hk⟩ := h1
  exact ⟨k, hk.symm⟩

/-- The flags bytes of the five frames of a blob of 900 zero bytes processed
with sequence counter 0. -/
theorem flags_of_900 :
    (RTCMDataUpdate 8 { _sequenceId := 0, _bandwidthByteCounter := 0, _bandwidthTimer := some 0 }
        ⟨0, 0⟩ true [] (List.replicate 900 0)).frames.map (fun m => m.flags) =
      [1, 3, 5, 7, 9] := by
  rw [frames_loop_flags _ _ _ _ _ _
    (by rw [List.length_replicate]; decide)]
  simp only [List.length_replicate]
  decide

theorem ceil_div_capacity (n : Nat) :
    Nat.ceil ((n : ℚ) / (maxMessageLength : ℚ)) = frameCount n := by
  have hc : ((maxMessageLength : Nat) : ℚ) = 180 := by
    simp [maxMessageLength, MAVLINK_MSG_GPS_RTCM_DATA_FIELD_DATA_LEN]
  have hf : frameCount n = (n + 179) / 180 := by
    simp [frameCount, maxMessageLength, MAVLINK_MSG_GPS_RTCM_DATA_FIELD_DATA_LEN]
  rw [hc, hf]
  rcases Nat.eq_zero_or_pos n with h | h
  · subst h
    simp
  · have h1 : (n + 179) / 180 ≠ 0 := by omega
    rw [Nat.ceil_eq_iff h1]
    constructor
    · rw [lt_div_iff₀ (by norm_num)]
      have : ((n + 179) / 180 - 1) * 180 < n := by omega
      exact_mod_cast this
    · rw [div_le_iff₀ (by norm_num)]
      have : n ≤ ((n + 179) / 180) * 180 := by omega
      exact_mod_cast this

/-! ## Claims on the framing -/

/-- C1: for every blob of at least `maxMessageLength` (180) bytes, the valid
payload bytes `data[0..len)` of the frames emitted by `RTCMDataUpdate`,
concatenated in emission order, are exactly the blob. -/
theorem RTCMDataUpdate_round_trip (seqBits : Nat) (self : RTCMMavlink) (now : Clock)
    (rtkFactGroup : Bool) (vehicles : List (Option Vehicle)) (data : List UInt8)
    (h : maxMessageLength ≤ data.length) :
    ((RTCMDataUpdate seqBits self now rtkFactGroup vehicles data).frames.map payload).flatten =
      data :=
  frames_loop_payload seqBits self now rtkFactGroup vehicles data h

theorem RTCMDataUpdate_round_trip_witness :
    maxMessageLength ≤ (List.replicate 450 (7 : UInt8)).length ∧
    ((RTCMDataUpdate 8
        { _sequenceId := 3, _bandwidthByteCounter := 0, _bandwidthTimer := some 0 }
        ⟨500, 500⟩ true [none, some { id := 1, primaryLink := some { mavlinkChannel := 2 } }]
        (List.replicate 450 7)).frames.map payload).flatten = List.replicate 450 7 :=
  ⟨by rw [List.length_replicate]; decide,
   RTCMDataUpdate_round_trip 8 _ ⟨500, 500⟩ true _ (List.replicate 450 7)
    (by rw [List.length_replicate]; decide)⟩

/-- C2 (at the failing input): for the blob of 900 zero bytes and sequence
counter 0, the frame of index 4 has flags byte `0x09`, while the formula
`0x01 | ((i mod 4) << 1) | ((sequence_counter & 0x1F) << 3)` gives `0x01`:
the 8-bit fragment counter is shifted without being masked to two bits. -/
theorem flags_fifth_frame_unmasked :
    ((RTCMDataUpdate 8
        { _sequenceId := 0, _bandwidthByteCounter := 0, _bandwidthTimer := some 0 }
        ⟨0, 0⟩ true [] (List.replicate 900 0)).frames[4]?).map (fun m => m.flags) = some 0x09 ∧
    (0x01 ||| ((4 % 4) <<< 1) ||| ((0 &&& 0x1F) <<< 3)) = 0x01 := by
  constructor
  · rw [← List.getElem?_map, flags_of_900]
    rfl
  · decide

/-- C3 (at the failing input): for the blob of 900 zero bytes and sequence
counter 0, the sequence fields (bits 3-7) of the five frames are 0, 0, 0, 0
and 1: the fifth frame does not carry the sequence value of the others. -/
theorem sequence_field_fifth_frame_differs :
    (RTCMDataUpdate 8
        { _sequenceId := 0, _bandwidthByteCounter := 0, _bandwidthTimer := some 0 }
        ⟨0, 0⟩ true [] (List.replicate 900 0)).frames.map sequenceField = [0, 0, 0, 0, 1] := by
  have h : (fun m => sequenceField m) =
      (fun f => (f >>> 3) % 32) ∘ (fun m : mavlink_gps_rtcm_data_t => m.flags) := rfl
  have h2 : sequenceField = fun m => sequenceField m := rfl
  rw [h2, h, ← List.map_map, flags_of_900]
  decide

/-- C4: for every blob shorter than `maxMessageLength` (the empty one
included), `RTCMDataUpdate` emits exactly one frame; its length field is the
length of the blob, its valid payload bytes are the blob, its flags byte is
`(_sequenceId & 0x1F) << 3`, and bit 0 and bits 1-2 of the flags are 0. -/
theorem RTCMDataUpdate_single_frame (seqBits : Nat) (self : RTCMMavlink) (now : Clock)
    (rtkFactGroup : Bool) (vehicles : List (Option Vehicle)) (data : List UInt8)
    (h : data.length < maxMessageLength) :
    ∃ m, (RTCMDataUpdate seqBits self now rtkFactGroup vehicles data).frames = [m] ∧
      m.len = data.length ∧ m.data.take data.length = data ∧
      m.flags = (self._sequenceId &&& 0x1F) <<< 3 ∧
      fragmentedBit m = 0 ∧ fragmentField m = 0 := by
  refine ⟨_, frames_single seqBits self now rtkFactGroup vehicles data h, ?_, ?_, ?_, ?_, ?_⟩
  · simp only [maxMessageLength, MAVLINK_MSG_GPS_RTCM_DATA_FIELD_DATA_LEN] at h
    simp only
    omega
  · simp [memcpy]
  · exact (single_flags self._sequenceId).1
  · simp only [fragmentedBit, (single_flags self._sequenceId).1]
    exact (single_flags self._sequenceId).2.1
  · simp only [fragmentField, (single_flags self._sequenceId).1]
    exact (single_flags self._sequenceId).2.2.1

theorem RTCMDataUpdate_single_frame_witness :
    ([] : List UInt8).length < maxMessageLength ∧
    ∃ m, (RTCMDataUpdate 8
        { _sequenceId := 37, _bandwidthByteCounter := 0, _bandwidthTimer := some 0 }
        ⟨10, 10⟩ true [] []).frames = [m] ∧
      m.len = ([] : List UInt8).length ∧ m.data.take ([] : List UInt8).length = [] ∧
      m.flags = (37 &&& 0x1F) <<< 3 ∧
      fragmentedBit m = 0 ∧ fragmentField m = 0 :=
  ⟨by decide, RTCMDataUpdate_single_frame 8 _ ⟨10, 10⟩ true [] [] (by decide)⟩

/-- C5: for every blob of at least `maxMessageLength` bytes, the number of
frames emitted by `RTCMDataUpdate` is `ceil(len / maxMessageLength)`, which
is `(len + 179) / 180` in integer division. -/
theorem RTCMDataUpdate_frame_count (seqBits : Nat) (self : RTCMMavlink) (now : Clock)
    (rtkFactGroup : Bool) (vehicles : List (Option Vehicle)) (data : List UInt8)
    (h : maxMessageLength ≤ data.length) :
    (RTCMDataUpdate seqBits self now rtkFactGroup vehicles data).frames.length =
        Nat.ceil ((data.length : ℚ) / (maxMessageLength : ℚ)) ∧
    (RTCMDataUpdate seqBits self now rtkFactGroup vehicles data).frames.length =
        (data.length + 179) / 180 := by
  rw [ceil_div_capacity, frames_loop_length _ _ _ _ _ _ h]
  exact ⟨rfl, rfl⟩

theorem RTCMDataUpdate_frame_count_witness :
    maxMessageLength ≤ (List.replicate 181 (0 : UInt8)).length ∧
    (RTCMDataUpdate 8
        { _sequenceId := 0, _bandwidthByteCounter := 0, _bandwidthTimer := some 0 }
        ⟨0, 0⟩ false [] (List.replicate 181 0)).frames.length =
      Nat.ceil (((List.replicate 181 (0 : UInt8)).length : ℚ) / (maxMessageLength : ℚ)) ∧
    (RTCMDataUpdate 8
        { _sequenceId := 0, _bandwidthByteCounter := 0, _bandwidthTimer := some 0 }
        ⟨0, 0⟩ false [] (List.replicate 181 0)).frames.length =
      ((List.replicate 181 (0 : UInt8)).length + 179) / 180 :=
  ⟨by rw [List.length_replicate]; decide,
   RTCMDataUpdate_frame_count 8 _ ⟨0, 0⟩ false [] (List.replicate 181 0)
    (by rw [List.length_replicate]; decide)⟩

/-- C6 (counterexample): a blob of exactly `maxMessageLength` = 180 bytes is
emitted as one frame whose fragmentation flag is 1, although the blob was not
split into two or more frames. -/
theorem fragmentedBit_of_180_bytes :
    ¬ (∀ m ∈ (RTCMDataUpdate 8
          { _sequenceId := 0, _bandwidthByteCounter := 0, _bandwidthTimer := some 0 }
          ⟨0, 0⟩ true [] (List.replicate 180 0)).frames,
        (fragmentedBit m = 1 ↔
          2 ≤ (RTCMDataUpdate 8
            { _sequenceId := 0, _bandwidthByteCounter := 0, _bandwidthTimer := some 0 }
            ⟨0, 0⟩ true [] (List.replicate 180 0)).frames.length)) := by
  intro hall
  have hge : maxMessageLength ≤ (List.replicate 180 (0 : UInt8)).length := by
    rw [List.length_replicate]; decide
  have hlen := frames_loop_length 8
    { _sequenceId := 0, _bandwidthByteCounter := 0, _bandwidthTimer := some 0 }
    ⟨0, 0⟩ true [] (List.replicate 180 0) hge
  have hone : frameCount (List.replicate 180 (0 : UInt8)).length = 1 := by
    rw [List.length_replicate]; decide
  rw [hone] at hlen
  obtain ⟨m, hm⟩ := List.length_eq_one.mp hlen
  have hmem : m ∈ (RTCMDataUpdate 8
      { _sequenceId := 0, _bandwidthByteCounter := 0, _bandwidthTimer := some 0 }
      ⟨0, 0⟩ true [] (List.replicate 180 0)).frames := by
    rw [hm]; exact List.mem_singleton.mpr rfl
  obtain ⟨k, hk⟩ := frames_loop_flags_mem _ _ _ _ _ _ hge m hmem
  have hbit : fragmentedBit m = 1 := by
    rw [fragmentedBit, hk]
    exact (fragmentFlags_fields (k % 256) 0 (Nat.mod_lt _ (by decide))).1
  have h2 := (hall m hmem).mp hbit
  omega

/-- C6 (amended): for every blob and every frame emitted for it, the
fragmentation flag (bit 0 of flags) is 1 if and only if the blob has at least
`maxMessageLength` bytes, that is, if and only if the blob was split into two
or more frames or has exactly `maxMessageLength` bytes. -/
theorem fragmentedBit_iff (seqBits : Nat) (self : RTCMMavlink) (now : Clock)
    (rtkFactGroup : Bool) (vehicles : List (Option Vehicle)) (data : List UInt8)
    (m : mavlink_gps_rtcm_data_t)
    (hm : m ∈ (RTCMDataUpdate seqBits self now rtkFactGroup vehicles data).frames) :
    (fragmentedBit m = 1 ↔ maxMessageLength ≤ data.length) ∧
    (fragmentedBit m = 1 ↔
      (2 ≤ (RTCMDataUpdate seqBits self now rtkFactGroup vehicles data).frames.length ∨
        data.length = maxMessageLength)) := by
  by_cases h : data.length < maxMessageLength
  · have hfr := frames_single seqBits self now rtkFactGroup vehicles data h
    rw [hfr] at hm ⊢
    have hm1 := List.mem_singleton.mp hm
    have hbit : fragmentedBit m = 0 := by
      rw [hm1]
      simp only [fragmentedBit, (single_flags self._sequenceId).1]
      exact (single_flags self._sequenceId).2.1
    simp only [List.length_singleton]
    constructor
    · constructor
      · intro h1; omega
      · intro h1; omega
    · constructor
      · intro h1; omega
      · intro h1; omega
  · have hge : maxMessageLength ≤ data.length := Nat.not_lt.mp h
    obtain ⟨k, hk⟩ := frames_loop_flags_mem _ _ _ _ _ _ hge m hm
    have hbit : fragmentedBit m = 1 := by
      rw [fragmentedBit, hk]
      exact (fragmentFlags_fields (k % 256) _ (Nat.mod_lt _ (by decide))).1
    rw [frames_loop_length _ _ _ _ _ _ hge]
    refine ⟨⟨fun _ => hge, fun _ => hbit⟩, ⟨fun _ => ?_, fun _ => hbit⟩⟩
    simp only [frameCount, maxMessageLength, MAVLINK_MSG_GPS_RTCM_DATA_FIELD_DATA_LEN] at hge ⊢
    omega

theorem fragmentedBit_iff_witness :
    ({ flags := 40, len := 0, data := List.replicate 180 0 } : mavlink_gps_rtcm_data_t) ∈
      (RTCMDataUpdate 8
        { _sequenceId := 5, _bandwidthByteCounter := 0, _bandwidthTimer := some 0 }
        ⟨0, 0⟩ true [] []).frames ∧
    (fragmentedBit { flags := 40, len := 0, data := List.replicate 180 0 } = 1 ↔
        maxMessageLength ≤ ([] : List UInt8).length) ∧
    (fragmentedBit { flags := 40, len := 0, data := List.replicate 180 0 } = 1 ↔
      (2 ≤ (RTCMDataUpdate 8
          { _sequenceId := 5, _bandwidthByteCounter := 0, _bandwidthTimer := some 0 }
          ⟨0, 0⟩ true [] []).frames.length ∨
        ([] : List UInt8).length = maxMessageLength)) :=
  have hm : ({ flags := 40, len := 0, data := List.replicate 180 0 } :
      mavlink_gps_rtcm_data_t) ∈
      (RTCMDataUpdate 8
        { _sequenceId := 5, _bandwidthByteCounter := 0, _bandwidthTimer := some 0 }
        ⟨0, 0⟩ true [] []).frames := by
    rw [frames_single 8 _ ⟨0, 0⟩ true [] [] (by decide)]
    exact List.mem_singleton.mpr rfl
  ⟨hm, fragmentedBit_iff 8
    { _sequenceId := 5, _bandwidthByteCounter := 0, _bandwidthTimer := some 0 }
    ⟨0, 0⟩ true [] [] { flags := 40, len := 0, data := List.replicate 180 0 } hm⟩

/-! ## The sequence counter -/

theorem RTCMDataUpdate_sequenceId (seqBits : Nat) (self : RTCMMavlink) (now : Clock)
    (rtkFactGroup : Bool) (vehicles : List (Option Vehicle)) (data : List UInt8) :
    (RTCMDataUpdate seqBits self now rtkFactGroup vehicles data).self._sequenceId =
      (self._sequenceId + 1) % 2 ^ seqBits := by
  simp only [RTCMDataUpdate, _calculateBandwith_sequenceId]

theorem mod_pow_mod_32 (seqBits n : Nat) (h : 5 ≤ seqBits) :
    n % 2 ^ seqBits % 32 = n % 32 :=
  Nat.mod_mod_of_dvd n (pow_dvd_pow 2 h)

theorem processBlobs_sequenceId (seqBits : Nat) (h : 5 ≤ seqBits) (blobs : List Arrival) :
    ∀ self : RTCMMavlink,
      (processBlobs seqBits self blobs)._sequenceId % 32 =
        (self._sequenceId + blobs.length) % 32 := by
  induction blobs with
  | nil => intro self; rfl
  | cons a rest ih =>
    intro self
    simp only [processBlobs, List.length_cons]
    rw [ih, RTCMDataUpdate_sequenceId, Nat.add_mod, mod_pow_mod_32 _ _ h]
    omega

/-- C7: one call of `RTCMDataUpdate` adds exactly one to `_sequenceId` (in
the arithmetic of its unsigned type, at least 5 bits wide), whatever the blob
and the vehicle list; the sequence value (counter mod 32) of the next blob is
(previous + 1) mod 32, and after any 32 consecutive blobs the sequence value
is what it was before the first of them. -/
theorem sequence_advances_once_per_blob (seqBits : Nat) (self : RTCMMavlink) (now : Clock)
    (rtkFactGroup : Bool) (vehicles : List (Option Vehicle)) (data : List UInt8)
    (blobs : List Arrival) (h : 5 ≤ seqBits) (h32 : blobs.length = 32) :
    (RTCMDataUpdate seqBits self now rtkFactGroup vehicles data).self._sequenceId =
        (self._sequenceId + 1) % 2 ^ seqBits ∧
    (RTCMDataUpdate seqBits self now rtkFactGroup vehicles data).self._sequenceId % 32 =
        (self._sequenceId % 32 + 1) % 32 ∧
    (processBlobs seqBits self blobs)._sequenceId % 32 = self._sequenceId % 32 := by
  refine ⟨RTCMDataUpdate_sequenceId _ _ _ _ _ _, ?_, ?_⟩
  · rw [RTCMDataUpdate_sequenceId, mod_pow_mod_32 _ _ h]
    omega
  · rw [processBlobs_sequenceId _ h, h32]
    omega

theorem sequence_advances_once_per_blob_witness :
    (5 ≤ 8 ∧
      (List.replicate 32
        ({ now := ⟨7, 7⟩, rtkFactGroup := true, vehicles := [], data := [1, 2, 3] } :
          Arrival)).length = 32) ∧
    (RTCMDataUpdate 8
        { _sequenceId := 255, _bandwidthByteCounter := 0, _bandwidthTimer := some 0 }
        ⟨7, 7⟩ true [] (List.replicate 400 1)).self._sequenceId = (255 + 1) % 2 ^ 8 ∧
    (RTCMDataUpdate 8
        { _sequenceId := 255, _bandwidthByteCounter := 0, _bandwidthTimer := some 0 }
        ⟨7, 7⟩ true [] (List.replicate 400 1)).self._sequenceId % 32 = (255 % 32 + 1) % 32 ∧
    (processBlobs 8
        { _sequenceId := 255, _bandwidthByteCounter := 0, _bandwidthTimer := some 0 }
        (List.replicate 32
          { now := ⟨7, 7⟩, rtkFactGroup := true, vehicles := [], data := [1, 2, 3] }))._sequenceId
      % 32 = 255 % 32 :=
  ⟨⟨by decide, by rw [List.length_replicate]⟩,
   sequence_advances_once_per_blob 8
    { _sequenceId := 255, _bandwidthByteCounter := 0, _bandwidthTimer := some 0 }
    ⟨7, 7⟩ true [] (List.replicate 400 1)
    (List.replicate 32
      { now := ⟨7, 7⟩, rtkFactGroup := true, vehicles := [], data := [1, 2, 3] })
    (by decide) (by rw [List.length_replicate])⟩

/-- C8: for every blob of at least `maxMessageLength` bytes and every frame
index `i`, the fragment-index field (bits 1-2 of flags) of the `i`-th frame is
`i mod 4`, for any number of fragments (past 4, and past the wrap of the 8-bit
fragment counter at 256). -/
theorem fragment_field_cycles (seqBits : Nat) (self : RTCMMavlink) (now : Clock)
    (rtkFactGroup : Bool) (vehicles : List (Option Vehicle)) (data : List UInt8) (i : Nat)
    (h : maxMessageLength ≤ data.length)
    (hi : i < (RTCMDataUpdate seqBits self now rtkFactGroup vehicles data).frames.length) :
    ((RTCMDataUpdate seqBits self now rtkFactGroup vehicles data).frames[i]?).map
      fragmentField = some (i % 4) := by
  rw [frames_loop_length _ _ _ _ _ _ h] at hi
  have hfl := frames_loop_flags_at seqBits self now rtkFactGroup vehicles data h i hi
  have hcomp : ((RTCMDataUpdate seqBits self now rtkFactGroup vehicles data).frames[i]?).map
      fragmentField =
      (((RTCMDataUpdate seqBits self now rtkFactGroup vehicles data).frames[i]?).map
        (fun m => m.flags)).map (fun f => (f >>> 1) % 4) := by
    rw [Option.map_map]
    rfl
  rw [hcomp, hfl, Option.map_some']
  have hb := (fragmentFlags_fields (i % 256) self._sequenceId (Nat.mod_lt _ (by decide))).2.1
  simp only [hb]
  congr 1
  omega

theorem fragment_field_cycles_witness :
    (maxMessageLength ≤ (List.replicate 900 (0 : UInt8)).length ∧
      4 < (RTCMDataUpdate 8
        { _sequenceId := 0, _bandwidthByteCounter := 0, _bandwidthTimer := some 0 }
        ⟨0, 0⟩ true [] (List.replicate 900 0)).frames.length) ∧
    ((RTCMDataUpdate 8
        { _sequenceId := 0, _bandwidthByteCounter := 0, _bandwidthTimer := some 0 }
        ⟨0, 0⟩ true [] (List.replicate 900 0)).frames[4]?).map fragmentField = some (4 % 4) :=
  have hge : maxMessageLength ≤ (List.replicate 900 (0 : UInt8)).length := by
    rw [List.length_replicate]; decide
  have hi : 4 < (RTCMDataUpdate 8
      { _sequenceId := 0, _bandwidthByteCounter := 0, _bandwidthTimer := some 0 }
      ⟨0, 0⟩ true [] (List.replicate 900 0)).frames.length := by
    rw [frames_loop_length _ _ _ _ _ _ hge, List.length_replicate]
    decide
  ⟨⟨hge, hi⟩,
   fragment_field_cycles 8
    { _sequenceId := 0, _bandwidthByteCounter := 0, _bandwidthTimer := some 0 }
    ⟨0, 0⟩ true [] (List.replicate 900 0) 4 hge hi⟩

/-! ## The sampler over a window -/

theorem toInt64_of_range (x : Int) (h0 : 0 ≤ x) (h : x < 2 ^ 63) : toInt64 x = x := by
  unfold toInt64
  omega

theorem toInt32_of_lt (x : Int) (h0 : 0 ≤ x) (h : x < 2 ^ 31) : toInt32 x = x := by
  unfold toInt32
  omega

theorem toInt32_range (x : Int) : -2 ^ 31 ≤ toInt32 x ∧ toInt32 x < 2 ^ 31 := by
  unfold toInt32
  omega

/-- The rate computed by line 119 when neither the product nor the
conversion to `int` overflows: the floor of `total * 1000 / elapsed`. -/
theorem rate_in_range (total elapsed : Int) (h0 : 0 ≤ total) (hp : total * 1000 < 2 ^ 63)
    (he : elapsed > 1000) (hq : total * 1000 / elapsed < 2 ^ 31) :
    toInt32 (Int.tdiv (toInt64 (toInt64 total * 1000)) elapsed) = total * 1000 / elapsed := by
  have ht : toInt64 total = total := toInt64_of_range total h0 (by omega)
  have hprod : toInt64 (total * 1000) = total * 1000 := toInt64_of_range _ (by omega) hp
  rw [ht, hprod, Int.tdiv_eq_ediv (by omega) (by omega)]
  exact toInt32_of_lt _ (Int.ediv_nonneg (by omega) (by omega)) hq

/-- Without overflow the accumulator holds the sum of the byte counts. -/
theorem accumulate_in_range (bs : List Nat) :
    ∀ counter : Int, 0 ≤ counter → counter + ((bs.sum : Nat) : Int) < 2 ^ 63 →
      accumulate counter bs = counter + ((bs.sum : Nat) : Int) := by
  induction bs with
  | nil => intro counter _ _; simp [accumulate]
  | cons b rest ih =>
    intro counter h0 h
    simp only [List.sum_cons, Nat.cast_add] at h ⊢
    have hb : (0 : Int) ≤ (b : Int) := Int.ofNat_nonneg b
    have hr : (0 : Int) ≤ ((rest.sum : Nat) : Int) := Int.ofNat_nonneg _
    have hstep : toInt64 (counter + (b : Int)) = counter + (b : Int) :=
      toInt64_of_range _ (by omega) (by omega)
    simp only [accumulate, hstep]
    rw [ih _ (by omega) (by omega)]
    omega

/-- Arrivals that all see at most 1000 ms elapsed only accumulate. -/
theorem sampleAll_within (windowStart : Int) (before : List (Clock × Bool × Nat)) :
    ∀ self : RTCMMavlink, self._bandwidthTimer = some windowStart →
      (∀ a ∈ before, a.1.atElapsed - windowStart ≤ 1000) →
      sampleAll self before =
        ({ self with _bandwidthByteCounter :=
            accumulate self._bandwidthByteCounter (before.map (fun a => a.2.2)) },
          List.replicate before.length none) := by
  induction before with
  | nil => intro self _ _; rfl
  | cons a rest ih =>
    intro self ht hb
    have ha : a.1.atElapsed - windowStart ≤ 1000 := hb a (List.mem_cons_self _ _)
    have hrest : ∀ b ∈ rest, b.1.atElapsed - windowStart ≤ 1000 :=
      fun b hb1 => hb b (List.mem_cons_of_mem _ hb1)
    simp only [sampleAll, _calculateBandwith_within self a.1 a.2.1 a.2.2 windowStart ht ha]
    rw [ih { self with
      _bandwidthByteCounter := toInt64 (self._bandwidthByteCounter + (a.2.2 : Int)) } ht hrest]
    simp only [List.map_cons, List.length_cons, List.replicate_succ, accumulate]

theorem sampleAll_append (xs ys : List (Clock × Bool × Nat)) :
    ∀ self : RTCMMavlink,
      sampleAll self (xs ++ ys) =
        ((sampleAll (sampleAll self xs).1 ys).1,
          (sampleAll self xs).2 ++ (sampleAll (sampleAll self xs).1 ys).2) := by
  induction xs with
  | nil => intro self; rfl
  | cons a rest ih =>
    intro self
    simp only [List.cons_append, sampleAll, List.append_eq, ih]

set_option maxRecDepth 100000 in
/-- C9 (counterexample): from a freshly reset accumulator with the timer
started at 0, a first arrival at 500 ms and a second whose `elapsed()` is
1001 ms. When the RTK fact group is not resolved, nothing is published on the
second arrival. When it is resolved and the second blob has 2^32 bytes, the
value published is -4290667 while floor((10 + 2^32) * 1000 / 1001) is
4290676629 (the quotient does not fit the `int`). When the second blob has
9223372036854776 bytes, the value published is -1330109751 while the floor
is 9214157878975800 (the 64-bit product overflows). -/
theorem sampler_publication_fails :
    sampleAll { _sequenceId := 0, _bandwidthByteCounter := 0, _bandwidthTimer := some 0 }
        [(⟨500, 500⟩, false, 10), (⟨1001, 1002⟩, false, 10)] =
      ({ _sequenceId := 0, _bandwidthByteCounter := 0, _bandwidthTimer := some 1002 },
        [none, none]) ∧
    (sampleAll { _sequenceId := 0, _bandwidthByteCounter := 0, _bandwidthTimer := some 0 }
        [(⟨500, 500⟩, true, 10), (⟨1001, 1002⟩, true, 4294967296)] =
      ({ _sequenceId := 0, _bandwidthByteCounter := 0, _bandwidthTimer := some 1002 },
        [none, some (-4290667)]) ∧
      (((10 + 4294967296 : Nat) : Int) * 1000) / (1001 - 0) = 4290676629) ∧
    (sampleAll { _sequenceId := 0, _bandwidthByteCounter := 0, _bandwidthTimer := some 0 }
        [(⟨500, 500⟩, true, 0), (⟨1001, 1002⟩, true, 9223372036854776)] =
      ({ _sequenceId := 0, _bandwidthByteCounter := 0, _bandwidthTimer := some 1002 },
        [none, some (-1330109751)]) ∧
      (((0 + 9223372036854776 : Nat) : Int) * 1000) / (1001 - 0) = 9214157878975800) := by
  decide

/-- C9 (amended): from a freshly reset accumulator (`_bandwidthByteCounter`
= 0) with a valid timer, if the arrivals `before` all see at most 1000 ms
elapsed and the next arrival sees `e > 1000` ms, then nothing is published on
the arrivals of `before`, and after the next arrival `_bandwidthByteCounter`
is 0 and the timer is restarted (at the clock reading made by `restart()`).
On that arrival nothing is published when the RTK fact group is not resolved;
when it is resolved and the byte total is within the range of the arithmetic
(total * 1000 below 2^63 and the quotient below 2^31), exactly one rate is
published and it is floor(total * 1000 / e), where total is the sum of the
bytes of all these arrivals. -/
theorem sampler_window_law (self : RTCMMavlink) (windowStart : Int)
    (before : List (Clock × Bool × Nat)) (now : Clock) (rtkFactGroup : Bool) (bytes : Nat)
    (ht : self._bandwidthTimer = some windowStart)
    (hc : self._bandwidthByteCounter = 0)
    (hb : ∀ a ∈ before, a.1.atElapsed - windowStart ≤ 1000)
    (he : now.atElapsed - windowStart > 1000) :
    (sampleAll self (before ++ [(now, rtkFactGroup, bytes)])).1 =
      { self with _bandwidthTimer := some now.atRestart, _bandwidthByteCounter := 0 } ∧
    ∃ r : Option Int,
      (sampleAll self (before ++ [(now, rtkFactGroup, bytes)])).2 =
        List.replicate before.length none ++ [r] ∧
      (rtkFactGroup = false → r = none) ∧
      (rtkFactGroup = true →
        (((before.map (fun a => a.2.2)).sum + bytes : Nat) : Int) * 1000 < 2 ^ 63 →
        ((((before.map (fun a => a.2.2)).sum + bytes : Nat) : Int) * 1000) /
          (now.atElapsed - windowStart) < 2 ^ 31 →
        r = some (((((before.map (fun a => a.2.2)).sum + bytes : Nat) : Int) * 1000) /
          (now.atElapsed - windowStart))) := by
  have hrun : sampleAll self (before ++ [(now, rtkFactGroup, bytes)]) =
      ({ self with _bandwidthTimer := some now.atRestart, _bandwidthByteCounter := 0 },
        List.replicate before.length none ++
          [if rtkFactGroup then
            some (toInt32 (Int.tdiv
              (toInt64 (toInt64
                (accumulate self._bandwidthByteCounter (before.map (fun a => a.2.2)) +
                  (bytes : Int)) * 1000))
              (now.atElapsed - windowStart)))
           else none]) := by
    rw [sampleAll_append, sampleAll_within windowStart before self ht hb]
    simp only [sampleAll]
    rw [_calculateBandwith_window
      { self with _bandwidthByteCounter :=
          accumulate self._bandwidthByteCounter (before.map (fun a => a.2.2)) }
      now rtkFactGroup bytes windowStart ht he]
  rw [hrun]
  refine ⟨rfl, _, rfl, ?_, ?_⟩
  · intro hr
    simp only [hr, Bool.false_eq_true, if_false]
  · intro hr hp hq
    simp only [hr, if_true, Option.some.injEq]
    have hsum0 : (0 : Int) ≤ (((before.map (fun a => a.2.2)).sum : Nat) : Int) :=
      Int.ofNat_nonneg _
    have hbytes0 : (0 : Int) ≤ (bytes : Int) := Int.ofNat_nonneg _
    simp only [Nat.cast_add] at hp hq ⊢
    have hacc : accumulate self._bandwidthByteCounter (before.map (fun a => a.2.2)) =
        (((before.map (fun a => a.2.2)).sum : Nat) : Int) := by
      rw [hc, accumulate_in_range _ 0 (Int.le_refl 0) (by omega)]
      omega
    rw [hacc]
    exact rate_in_range _ _ (by omega) hp he hq

theorem sampler_window_law_witness :
    ((∀ a ∈ [((⟨400, 400⟩ : Clock), true, 100), (⟨900, 901⟩, true, 150)],
        a.1.atElapsed - 0 ≤ 1000) ∧
      (1250 : Int) - 0 > 1000) ∧
    sampleAll { _sequenceId := 0, _bandwidthByteCounter := 0, _bandwidthTimer := some 0 }
        ([(⟨400, 400⟩, true, 100), (⟨900, 901⟩, true, 150)] ++ [(⟨1250, 1252⟩, true, 250)]) =
      ({ _sequenceId := 0, _bandwidthByteCounter := 0, _bandwidthTimer := some 1252 },
        [none, none, some 400]) := by
  have hb : ∀ a ∈ [((⟨400, 400⟩ : Clock), true, 100), (⟨900, 901⟩, true, 150)],
      a.1.atElapsed - 0 ≤ 1000 := by decide
  have he : (1250 : Int) - 0 > 1000 := by decide
  obtain ⟨h1, r, h2, _, h4⟩ := sampler_window_law
    { _sequenceId := 0, _bandwidthByteCounter := 0, _bandwidthTimer := some 0 } 0
    [(⟨400, 400⟩, true, 100), (⟨900, 901⟩, true, 150)] ⟨1250, 1252⟩ true 250 rfl rfl hb he
  refine ⟨⟨hb, he⟩, ?_⟩
  rw [Prod.ext_iff]
  refine ⟨h1, ?_⟩
  rw [h2, h4 rfl (by decide) (by decide)]
  decide

/-! ## Dispatch -/

theorem sendLoop_eq_filterMap (data : mavlink_gps_rtcm_data_t)
    (vehicles : List (Option Vehicle)) :
    ∀ i : Nat, sendLoop data i vehicles =
      (vehicles.enumFrom i).filterMap (fun p => sendFor data p.1 p.2) := by
  induction vehicles with
  | nil => intro i; rfl
  | cons v rest ih =>
    intro i
    cases v with
    | none => simp only [sendLoop, List.enumFrom_cons, List.filterMap_cons, sendFor, ih]
    | some vehicle =>
      cases hl : vehicle.primaryLink with
      | none => simp only [sendLoop, List.enumFrom_cons, List.filterMap_cons, sendFor, ih, hl]
      | some sharedLink =>
        simp only [sendLoop, List.enumFrom_cons, List.filterMap_cons, sendFor, ih, hl]

theorem sendLoop_length (data : mavlink_gps_rtcm_data_t) (vehicles : List (Option Vehicle)) :
    ∀ i : Nat, (sendLoop data i vehicles).length = vehicles.countP resolved := by
  induction vehicles with
  | nil => intro i; rfl
  | cons v rest ih =>
    intro i
    cases v with
    | none => simp [sendLoop, resolved, ih]
    | some vehicle =>
      cases hl : vehicle.primaryLink with
      | none => simp [sendLoop, resolved, ih, hl]
      | some sharedLink => simp [sendLoop, resolved, ih, hl]

/-- C10: the dispatch of one frame over any vehicle list makes exactly one
send for every entry that resolves to a transport (a non-null vehicle with a
primary link), in the order of the list and carrying that frame, and none for
the other entries; with N entries of which M do not resolve it makes N - M
sends; the entries after an unresolved one are still served; an empty list
gives no send. -/
theorem dispatch_sends (vehicles : List (Option Vehicle)) (data : mavlink_gps_rtcm_data_t) :
    _sendMessageToVehicle vehicles data =
        vehicles.enum.filterMap (fun p => sendFor data p.1 p.2) ∧
    (_sendMessageToVehicle vehicles data).length =
        vehicles.length - vehicles.countP (fun v => !resolved v) ∧
    (∀ before after : List (Option Vehicle),
      vehicles = before ++ after →
      _sendMessageToVehicle vehicles data =
        _sendMessageToVehicle before data ++ sendLoop data before.length after) ∧
    _sendMessageToVehicle [] data = [] := by
  have hdef : ∀ vs : List (Option Vehicle),
      _sendMessageToVehicle vs data = sendLoop data 0 vs := by
    intro vs
    cases vs with
    | nil => rfl
    | cons v rest => simp [_sendMessageToVehicle]
  refine ⟨?_, ?_, ?_, rfl⟩
  · rw [hdef, sendLoop_eq_filterMap]
    rfl
  · rw [hdef, sendLoop_length]
    have := List.length_eq_countP_add_countP resolved vehicles
    have h2 : List.countP (fun v => decide ¬resolved v = true) vehicles =
        List.countP (fun v => !resolved v) vehicles := by
      congr 1
      funext v
      cases resolved v <;> rfl
    omega
  · intro before after hv
    rw [hv, hdef, hdef, sendLoop_eq_filterMap, sendLoop_eq_filterMap, sendLoop_eq_filterMap,
      List.enumFrom_append, List.filterMap_append, Nat.zero_add]

/-! ## Further facts on the loop -/

/-- The loop leaves `start` at the size of the blob. -/
theorem whileLoop_final_start (sequenceId : Nat) (vehicles : List (Option Vehicle))
    (data : List UInt8) :
    ∀ (n : Nat) (s : LoopState), data.length - s.start = n → s.start ≤ data.length →
      (whileLoop sequenceId vehicles data s).1.start = data.length := by
  intro n
  induction n using Nat.strong_induction_on with
  | _ n ih =>
    intro s hn hle
    by_cases h : s.start < data.length
    · rw [whileLoop_step _ _ _ _ h]
      simp only
      apply ih _ _ _ rfl
      · simp only [maxMessageLength, MAVLINK_MSG_GPS_RTCM_DATA_FIELD_DATA_LEN]
        omega
      · simp only [maxMessageLength, MAVLINK_MSG_GPS_RTCM_DATA_FIELD_DATA_LEN]
        omega
    · rw [whileLoop_done _ _ _ _ h]
      simp only
      omega

set_option maxRecDepth 1000000 in
/-- The flags byte of a fragment as one expression truncated to 8 bits, and
without truncation for the first four values of the fragment counter. -/
theorem flags_exact_table :
    ∀ f, f < 256 → ∀ q, q < 32 →
      ((0x01 ||| (f <<< 1)) % 256 ||| (q <<< 3)) % 256 =
        (0x01 ||| (f <<< 1) ||| (q <<< 3)) % 256 ∧
      (f < 4 → ((0x01 ||| (f <<< 1)) % 256 ||| (q <<< 3)) % 256 =
        0x01 ||| (f <<< 1) ||| (q <<< 3)) := by
  decide

theorem fragmentFlags_exact (f sequenceId : Nat) (hf : f < 256) :
    fragmentFlags f sequenceId =
        (0x01 ||| (f <<< 1) ||| ((sequenceId &&& 0x1F) <<< 3)) % 256 ∧
    (f < 4 → fragmentFlags f sequenceId =
        0x01 ||| (f <<< 1) ||| ((sequenceId % 32) <<< 3)) := by
  have h := flags_exact_table f hf (sequenceId % 32) (Nat.mod_lt _ (by decide))
  simpa only [fragmentFlags, and_0x1F] using h

/-! ## Claims on the sampler and on the loop -/

/-- C11: when the bandwidth timer is invalid, `_calculateBandwith` does
nothing, for every byte count: the members are unchanged (the accumulator
does not receive the bytes and the timer stays invalid) and no rate is
published. -/
theorem sampler_invalid_timer_noop (self : RTCMMavlink) (now : Clock) (rtkFactGroup : Bool)
    (bytes : Nat) (ht : self._bandwidthTimer = none) :
    _calculateBandwith self now rtkFactGroup bytes = (self, none) ∧
    (_calculateBandwith self now rtkFactGroup bytes).1._bandwidthByteCounter =
      self._bandwidthByteCounter ∧
    (_calculateBandwith self now rtkFactGroup bytes).1._bandwidthTimer = none ∧
    (_calculateBandwith self now rtkFactGroup bytes).2 = none := by
  rw [_calculateBandwith_invalid _ _ _ _ ht]
  exact ⟨rfl, rfl, ht, rfl⟩

theorem sampler_invalid_timer_noop_witness :
    _calculateBandwith
        { _sequenceId := 4, _bandwidthByteCounter := 77, _bandwidthTimer := none }
        ⟨5000, 5000⟩ true 300 =
      ({ _sequenceId := 4, _bandwidthByteCounter := 77, _bandwidthTimer := none }, none) ∧
    (_calculateBandwith
        { _sequenceId := 4, _bandwidthByteCounter := 77, _bandwidthTimer := none }
        ⟨5000, 5000⟩ true 300).1._bandwidthByteCounter = 77 ∧
    (_calculateBandwith
        { _sequenceId := 4, _bandwidthByteCounter := 77, _bandwidthTimer := none }
        ⟨5000, 5000⟩ true 300).1._bandwidthTimer = none ∧
    (_calculateBandwith
        { _sequenceId := 4, _bandwidthByteCounter := 77, _bandwidthTimer := none }
        ⟨5000, 5000⟩ true 300).2 = none :=
  sampler_invalid_timer_noop
    { _sequenceId := 4, _bandwidthByteCounter := 77, _bandwidthTimer := none }
    ⟨5000, 5000⟩ true 300 rfl

theorem RTCMDataUpdate_sampler (seqBits : Nat) (self : RTCMMavlink) (now : Clock)
    (rtkFactGroup : Bool) (vehicles : List (Option Vehicle)) (data : List UInt8) :
    (RTCMDataUpdate seqBits self now rtkFactGroup vehicles data).self =
      { (_calculateBandwith self now rtkFactGroup data.length).1 with
        _sequenceId := (self._sequenceId + 1) % 2 ^ seqBits } ∧
    (RTCMDataUpdate seqBits self now rtkFactGroup vehicles data).rate =
      (_calculateBandwith self now rtkFactGroup data.length).2 := by
  simp only [RTCMDataUpdate, _calculateBandwith_sequenceId, and_self]

/-- C12: `RTCMDataUpdate` runs the sampler once, on the size of the whole
blob: the members and the published rate after the call are those of one
call `_calculateBandwith(len(blob))` followed by the increment of
`_sequenceId`, so they are the same for any two vehicle lists (the empty one
included) and do not depend on the number of frames. Within the window the
accumulator receives the sum of line 114 with `len(blob)`, which is the
accumulator plus `len(blob)` when that fits the 64-bit accumulator; when the
window has elapsed the accumulator is reset, and the rate, within the range
of the arithmetic, is computed from the accumulator plus `len(blob)`. -/
theorem sampler_fed_blob_size_once (seqBits : Nat) (self : RTCMMavlink) (now : Clock)
    (rtkFactGroup : Bool) (data : List UInt8) :
    (∀ vehicles1 vehicles2 : List (Option Vehicle),
      (RTCMDataUpdate seqBits self now rtkFactGroup vehicles1 data).self =
        (RTCMDataUpdate seqBits self now rtkFactGroup vehicles2 data).self ∧
      (RTCMDataUpdate seqBits self now rtkFactGroup vehicles1 data).rate =
        (RTCMDataUpdate seqBits self now rtkFactGroup vehicles2 data).rate) ∧
    (∀ vehicles : List (Option Vehicle),
      (RTCMDataUpdate seqBits self now rtkFactGroup vehicles data).self =
        { (_calculateBandwith self now rtkFactGroup data.length).1 with
          _sequenceId := (self._sequenceId + 1) % 2 ^ seqBits } ∧
      (RTCMDataUpdate seqBits self now rtkFactGroup vehicles data).rate =
        (_calculateBandwith self now rtkFactGroup data.length).2) ∧
    (∀ (vehicles : List (Option Vehicle)) (windowStart : Int),
      self._bandwidthTimer = some windowStart → now.atElapsed - windowStart ≤ 1000 →
      (RTCMDataUpdate seqBits self now rtkFactGroup vehicles data).self._bandwidthByteCounter =
        toInt64 (self._bandwidthByteCounter + (data.length : Int)) ∧
      (0 ≤ self._bandwidthByteCounter →
        self._bandwidthByteCounter + (data.length : Int) < 2 ^ 63 →
        (RTCMDataUpdate seqBits self now rtkFactGroup vehicles
            data).self._bandwidthByteCounter =
          self._bandwidthByteCounter + (data.length : Int)) ∧
      (RTCMDataUpdate seqBits self now rtkFactGroup vehicles data).rate = none) ∧
    (∀ (vehicles : List (Option Vehicle)) (windowStart : Int),
      self._bandwidthTimer = some windowStart → now.atElapsed - windowStart > 1000 →
      (RTCMDataUpdate seqBits self now rtkFactGroup vehicles data).self._bandwidthByteCounter =
        0 ∧
      (0 ≤ self._bandwidthByteCounter →
        (self._bandwidthByteCounter + (data.length : Int)) * 1000 < 2 ^ 63 →
        ((self._bandwidthByteCounter + (data.length : Int)) * 1000) /
          (now.atElapsed - windowStart) < 2 ^ 31 →
        (RTCMDataUpdate seqBits self now rtkFactGroup vehicles data).rate =
          if rtkFactGroup then
            some (((self._bandwidthByteCounter + (data.length : Int)) * 1000) /
              (now.atElapsed - windowStart))
          else none)) := by
  refine ⟨?_, ?_, ?_, ?_⟩
  · intro vehicles1 vehicles2
    rw [(RTCMDataUpdate_sampler _ _ _ _ vehicles1 _).1,
      (RTCMDataUpdate_sampler _ _ _ _ vehicles1 _).2,
      (RTCMDataUpdate_sampler _ _ _ _ vehicles2 _).1,
      (RTCMDataUpdate_sampler _ _ _ _ vehicles2 _).2]
    exact ⟨rfl, rfl⟩
  · intro vehicles
    exact RTCMDataUpdate_sampler _ _ _ _ vehicles _
  · intro vehicles windowStart ht he
    rw [(RTCMDataUpdate_sampler _ _ _ _ vehicles _).1,
      (RTCMDataUpdate_sampler _ _ _ _ vehicles _).2,
      _calculateBandwith_within _ _ _ _ _ ht he]
    refine ⟨rfl, ?_, rfl⟩
    intro h0 hlt
    have hlen : (0 : Int) ≤ (data.length : Int) := Int.ofNat_nonneg _
    exact toInt64_of_range _ (by omega) hlt
  · intro vehicles windowStart ht he
    rw [(RTCMDataUpdate_sampler _ _ _ _ vehicles _).1,
      (RTCMDataUpdate_sampler _ _ _ _ vehicles _).2,
      _calculateBandwith_window _ _ _ _ _ ht he]
    refine ⟨rfl, ?_⟩
    intro h0 hp hq
    have hlen : (0 : Int) ≤ (data.length : Int) := Int.ofNat_nonneg _
    simp only
    rw [rate_in_range _ _ (by omega) hp he hq]

/-- C13: the fragmentation loop is total. From `start = 0` it ends, for every
blob, with `start = len(blob)` after `frameCount len` iterations; an iteration
entered at `start < len` continues from an offset that is larger by at least 1
and at most `maxMessageLength` and does not exceed `len`; at `start >= len`
the loop exits with its variables unchanged. -/
theorem fragmentation_loop_total (sequenceId : Nat) (vehicles : List (Option Vehicle))
    (data : List UInt8) :
    (whileLoop sequenceId vehicles data
        { fragmentId := 0, start := 0, gpsRtcmData := gpsRtcmDataInit }).1.start =
      data.length ∧
    (whileLoop sequenceId vehicles data
        { fragmentId := 0, start := 0, gpsRtcmData := gpsRtcmDataInit }).2.length =
      frameCount data.length ∧
    (∀ s : LoopState, s.start ≤ data.length →
      (whileLoop sequenceId vehicles data s).1.start = data.length) ∧
    (∀ s : LoopState, s.start < data.length →
      ∃ (next : LoopState) (d : Dispatch),
        whileLoop sequenceId vehicles data s =
          ((whileLoop sequenceId vehicles data next).1,
            d :: (whileLoop sequenceId vehicles data next).2) ∧
        next.start = s.start + min (data.length - s.start) maxMessageLength ∧
        s.start + 1 ≤ next.start ∧ next.start ≤ s.start + maxMessageLength ∧
        next.start ≤ data.length) ∧
    (∀ s : LoopState, ¬ s.start < data.length →
      whileLoop sequenceId vehicles data s = (s, [])) := by
  refine ⟨?_, ?_, ?_, ?_, ?_⟩
  · exact whileLoop_final_start _ _ _ _ _ rfl (Nat.zero_le _)
  · exact whileLoop_length _ _ _ _ _ rfl
  · intro s hs
    exact whileLoop_final_start _ _ _ _ _ rfl hs
  · intro s hs
    refine ⟨_, _, whileLoop_step _ _ _ _ hs, rfl, ?_, ?_, ?_⟩
    · simp only [maxMessageLength, MAVLINK_MSG_GPS_RTCM_DATA_FIELD_DATA_LEN]
      omega
    · simp only [maxMessageLength, MAVLINK_MSG_GPS_RTCM_DATA_FIELD_DATA_LEN]
      omega
    · simp only [maxMessageLength, MAVLINK_MSG_GPS_RTCM_DATA_FIELD_DATA_LEN]
      omega
  · intro s hs
    exact whileLoop_done _ _ _ _ hs

/-- C14: with `maxMessageLength` = 180, for every blob of 450 bytes and every
sequence value `seq` = `_sequenceId mod 32` before the call, `RTCMDataUpdate`
emits exactly 3 frames, of lengths 180, 180, 90 and flags
`0x01 | (0<<1) | (seq<<3)`, `0x01 | (1<<1) | (seq<<3)`,
`0x01 | (2<<1) | (seq<<3)`, and afterwards `_sequenceId` has increased by
exactly 1 (in its unsigned type of at least 5 bits; without wrap when the
type has 6 bits or more and the counter was below 32). -/
theorem scenario_450_bytes (seqBits : Nat) (self : RTCMMavlink) (now : Clock)
    (rtkFactGroup : Bool) (vehicles : List (Option Vehicle)) (data : List UInt8)
    (h : data.length = 450) (hbits : 5 ≤ seqBits) :
    (RTCMDataUpdate seqBits self now rtkFactGroup vehicles data).frames.length = 3 ∧
    (RTCMDataUpdate seqBits self now rtkFactGroup vehicles data).frames.map
        (fun m => m.len) = [180, 180, 90] ∧
    (RTCMDataUpdate seqBits self now rtkFactGroup vehicles data).frames.map
        (fun m => m.flags) =
      [0x01 ||| (0 <<< 1) ||| ((self._sequenceId % 32) <<< 3),
       0x01 ||| (1 <<< 1) ||| ((self._sequenceId % 32) <<< 3),
       0x01 ||| (2 <<< 1) ||| ((self._sequenceId % 32) <<< 3)] ∧
    (RTCMDataUpdate seqBits self now rtkFactGroup vehicles data).self._sequenceId =
      (self._sequenceId + 1) % 2 ^ seqBits ∧
    (RTCMDataUpdate seqBits self now rtkFactGroup vehicles data).self._sequenceId % 32 =
      (self._sequenceId % 32 + 1) % 32 ∧
    (6 ≤ seqBits → self._sequenceId < 32 →
      (RTCMDataUpdate seqBits self now rtkFactGroup vehicles data).self._sequenceId =
        self._sequenceId + 1) := by
  have hge : maxMessageLength ≤ data.length := by
    rw [h]; decide
  have hrange : List.range (frameCount 450) = [0, 1, 2] := by decide
  refine ⟨?_, ?_, ?_, RTCMDataUpdate_sequenceId _ _ _ _ _ _, ?_, ?_⟩
  · rw [frames_loop_length _ _ _ _ _ _ hge, h]
    decide
  · rw [frames_loop_len _ _ _ _ _ _ hge, h]
    decide
  · rw [frames_loop_flags _ _ _ _ _ _ hge, h, hrange]
    simp only [List.map_cons, List.map_nil]
    rw [(fragmentFlags_exact (0 % 256) self._sequenceId (by decide)).2 (by decide),
      (fragmentFlags_exact (1 % 256) self._sequenceId (by decide)).2 (by decide),
      (fragmentFlags_exact (2 % 256) self._sequenceId (by decide)).2 (by decide)]
  · rw [RTCMDataUpdate_sequenceId, mod_pow_mod_32 _ _ hbits]
    omega
  · intro h6 hs
    rw [RTCMDataUpdate_sequenceId]
    apply Nat.mod_eq_of_lt
    have h64 : 2 ^ 6 ≤ 2 ^ seqBits := Nat.pow_le_pow_right (by decide) h6
    omega

theorem scenario_450_bytes_witness :
    ((List.replicate 450 (9 : UInt8)).length = 450 ∧ 5 ≤ 8) ∧
    (RTCMDataUpdate 8
        { _sequenceId := 21, _bandwidthByteCounter := 0, _bandwidthTimer := some 0 }
        ⟨3, 3⟩ true [] (List.replicate 450 9)).frames.length = 3 ∧
    (RTCMDataUpdate 8
        { _sequenceId := 21, _bandwidthByteCounter := 0, _bandwidthTimer := some 0 }
        ⟨3, 3⟩ true [] (List.replicate 450 9)).frames.map (fun m => m.len) = [180, 180, 90] ∧
    (RTCMDataUpdate 8
        { _sequenceId := 21, _bandwidthByteCounter := 0, _bandwidthTimer := some 0 }
        ⟨3, 3⟩ true [] (List.replicate 450 9)).frames.map (fun m => m.flags) =
      [0x01 ||| (0 <<< 1) ||| ((21 % 32) <<< 3),
       0x01 ||| (1 <<< 1) ||| ((21 % 32) <<< 3),
       0x01 ||| (2 <<< 1) ||| ((21 % 32) <<< 3)] ∧
    (RTCMDataUpdate 8
        { _sequenceId := 21, _bandwidthByteCounter := 0, _bandwidthTimer := some 0 }
        ⟨3, 3⟩ true [] (List.replicate 450 9)).self._sequenceId = (21 + 1) % 2 ^ 8 ∧
    (RTCMDataUpdate 8
        { _sequenceId := 21, _bandwidthByteCounter := 0, _bandwidthTimer := some 0 }
        ⟨3, 3⟩ true [] (List.replicate 450 9)).self._sequenceId % 32 = (21 % 32 + 1) % 32 ∧
    (6 ≤ 8 → 21 < 32 →
      (RTCMDataUpdate 8
        { _sequenceId := 21, _bandwidthByteCounter := 0, _bandwidthTimer := some 0 }
        ⟨3, 3⟩ true [] (List.replicate 450 9)).self._sequenceId = 21 + 1) :=
  ⟨⟨by rw [List.length_replicate], by decide⟩,
   scenario_450_bytes 8
    { _sequenceId := 21, _bandwidthByteCounter := 0, _bandwidthTimer := some 0 }
    ⟨3, 3⟩ true [] (List.replicate 450 9) (by rw [List.length_replicate]) (by decide)⟩

/-- C16: under the 8-bit arithmetic of the code, for every blob of at least
`maxMessageLength` bytes and every frame index `i`, the flags byte is
`(0x01 | ((i mod 256) << 1) | ((seq & 0x1F) << 3)) mod 256`; hence the
sequence field (bits 3-7) of frame `i` is `(seq mod 32) | ((i div 4) mod 32)`,
which is `seq mod 32` for every `i < 4`. -/
theorem flags_exact_8bit (seqBits : Nat) (self : RTCMMavlink) (now : Clock)
    (rtkFactGroup : Bool) (vehicles : List (Option Vehicle)) (data : List UInt8) (i : Nat)
    (h : maxMessageLength ≤ data.length)
    (hi : i < (RTCMDataUpdate seqBits self now rtkFactGroup vehicles data).frames.length) :
    ((RTCMDataUpdate seqBits self now rtkFactGroup vehicles data).frames[i]?).map
        (fun m => m.flags) =
      some ((0x01 ||| ((i % 256) <<< 1) ||| ((self._sequenceId &&& 0x1F) <<< 3)) % 256) ∧
    ((RTCMDataUpdate seqBits self now rtkFactGroup vehicles data).frames[i]?).map
        sequenceField = some (self._sequenceId % 32 ||| (i / 4 % 32)) ∧
    (i < 4 →
      ((RTCMDataUpdate seqBits self now rtkFactGroup vehicles data).frames[i]?).map
        sequenceField = some (self._sequenceId % 32)) := by
  rw [frames_loop_length _ _ _ _ _ _ h] at hi
  have hfl := frames_loop_flags_at seqBits self now rtkFactGroup vehicles data h i hi
  have hlt : i % 256 < 256 := Nat.mod_lt _ (by decide)
  have hseq : ((RTCMDataUpdate seqBits self now rtkFactGroup vehicles data).frames[i]?).map
      sequenceField = some (self._sequenceId % 32 ||| (i / 4 % 32)) := by
    have hcomp : ((RTCMDataUpdate seqBits self now rtkFactGroup vehicles data).frames[i]?).map
        sequenceField =
        (((RTCMDataUpdate seqBits self now rtkFactGroup vehicles data).frames[i]?).map
          (fun m => m.flags)).map (fun f => (f >>> 3) % 32) := by
      rw [Option.map_map]
      rfl
    rw [hcomp, hfl, Option.map_some']
    have hb := (fragmentFlags_fields (i % 256) self._sequenceId hlt).2.2
    simp only [hb]
    have hdiv : i % 256 / 4 % 32 = i / 4 % 32 := by omega
    rw [hdiv]
  refine ⟨?_, hseq, ?_⟩
  · rw [hfl, (fragmentFlags_exact (i % 256) self._sequenceId hlt).1]
  · intro h4
    rw [hseq]
    have hz : i / 4 % 32 = 0 := by omega
    rw [hz, Nat.or_zero]

theorem flags_exact_8bit_witness :
    (maxMessageLength ≤ (List.replicate 1000 (0 : UInt8)).length ∧
      5 < (RTCMDataUpdate 8
        { _sequenceId := 2, _bandwidthByteCounter := 0, _bandwidthTimer := some 0 }
        ⟨0, 0⟩ true [] (List.replicate 1000 0)).frames.length) ∧
    ((RTCMDataUpdate 8
        { _sequenceId := 2, _bandwidthByteCounter := 0, _bandwidthTimer := some 0 }
        ⟨0, 0⟩ true [] (List.replicate 1000 0)).frames[5]?).map (fun m => m.flags) =
      some ((0x01 ||| ((5 % 256) <<< 1) ||| ((2 &&& 0x1F) <<< 3)) % 256) ∧
    ((RTCMDataUpdate 8
        { _sequenceId := 2, _bandwidthByteCounter := 0, _bandwidthTimer := some 0 }
        ⟨0, 0⟩ true [] (List.replicate 1000 0)).frames[5]?).map sequenceField =
      some (2 % 32 ||| (5 / 4 % 32)) ∧
    (5 < 4 →
      ((RTCMDataUpdate 8
        { _sequenceId := 2, _bandwidthByteCounter := 0, _bandwidthTimer := some 0 }
        ⟨0, 0⟩ true [] (List.replicate 1000 0)).frames[5]?).map sequenceField = some (2 % 32)) :=
  have hge : maxMessageLength ≤ (List.replicate 1000 (0 : UInt8)).length := by
    rw [List.length_replicate]; decide
  have hi : 5 < (RTCMDataUpdate 8
      { _sequenceId := 2, _bandwidthByteCounter := 0, _bandwidthTimer := some 0 }
      ⟨0, 0⟩ true [] (List.replicate 1000 0)).frames.length := by
    rw [frames_loop_length _ _ _ _ _ _ hge, List.length_replicate]
    decide
  ⟨⟨hge, hi⟩,
   flags_exact_8bit 8
    { _sequenceId := 2, _bandwidthByteCounter := 0, _bandwidthTimer := some 0 }
    ⟨0, 0⟩ true [] (List.replicate 1000 0) 5 hge hi⟩

/-- C17: whenever `_calculateBandwith` publishes a rate, the timer is valid
and the divisor `elapsed` is above 1000 (so not 0), the rate is the quotient
of the division of line 119 converted to `int`, and, for an accumulator that
is not negative, it is at most the byte total of the window (the triggering
blob included), strictly less when that total is positive, and 0 when the
total is 0. -/
theorem published_rate_bounds (self : RTCMMavlink) (now : Clock) (rtkFactGroup : Bool)
    (bytes : Nat) (rate : Int)
    (h0 : 0 ≤ self._bandwidthByteCounter)
    (h : (_calculateBandwith self now rtkFactGroup bytes).2 = some rate) :
    ∃ windowStart : Int, self._bandwidthTimer = some windowStart ∧
      now.atElapsed - windowStart > 1000 ∧ now.atElapsed - windowStart ≠ 0 ∧
      rate = toInt32 (Int.tdiv
        (toInt64 (toInt64 (self._bandwidthByteCounter + (bytes : Int)) * 1000))
        (now.atElapsed - windowStart)) ∧
      rate ≤ self._bandwidthByteCounter + (bytes : Int) ∧
      (0 < self._bandwidthByteCounter + (bytes : Int) →
        rate < self._bandwidthByteCounter + (bytes : Int)) ∧
      (self._bandwidthByteCounter + (bytes : Int) = 0 → rate = 0) := by
  cases ht : self._bandwidthTimer with
  | none =>
    rw [_calculateBandwith_invalid _ _ _ _ ht] at h
    exact absurd h (by simp)
  | some windowStart =>
    by_cases he : now.atElapsed - windowStart > 1000
    · rw [_calculateBandwith_window _ _ _ _ _ ht he] at h
      cases hr : rtkFactGroup with
      | false =>
        rw [hr] at h
        exact absurd h (by simp)
      | true =>
        rw [hr] at h
        simp only [if_true, Option.some.injEq] at h
        have hbytes : (0 : Int) ≤ (bytes : Int) := Int.ofNat_nonneg _
        have hpos : (0 : Int) < now.atElapsed - windowStart := by omega
        have hrange := toInt32_range (Int.tdiv
          (toInt64 (toInt64 (self._bandwidthByteCounter + (bytes : Int)) * 1000))
          (now.atElapsed - windowStart))
        rw [h] at hrange
        refine ⟨windowStart, rfl, he, by omega, h.symm, ?_⟩
        by_cases hsmall : self._bandwidthByteCounter + (bytes : Int) < 2 ^ 31
        · have htot : (0 : Int) ≤ self._bandwidthByteCounter + (bytes : Int) := by omega
          have hqle : ((self._bandwidthByteCounter + (bytes : Int)) * 1000) /
              (now.atElapsed - windowStart) ≤ self._bandwidthByteCounter + (bytes : Int) := by
            apply Int.ediv_le_of_le_mul hpos
            exact Int.mul_le_mul_of_nonneg_left (Int.le_of_lt he) htot
          have hqlt : 0 < self._bandwidthByteCounter + (bytes : Int) →
              ((self._bandwidthByteCounter + (bytes : Int)) * 1000) /
                (now.atElapsed - windowStart) < self._bandwidthByteCounter + (bytes : Int) := by
            intro hp
            apply Int.ediv_lt_of_lt_mul hpos
            exact Int.mul_lt_mul_of_pos_left he hp
          have hq0 : (0 : Int) ≤ ((self._bandwidthByteCounter + (bytes : Int)) * 1000) /
              (now.atElapsed - windowStart) :=
            Int.ediv_nonneg (by omega) (Int.le_of_lt hpos)
          have hrate := rate_in_range (self._bandwidthByteCounter + (bytes : Int))
            (now.atElapsed - windowStart) htot (by omega) he (by omega)
          rw [h] at hrate
          refine ⟨by omega, ?_, ?_⟩
          · intro hp
            have := hqlt hp
            omega
          · intro hz
            rw [hrate, hz]
            simp
        · refine ⟨by omega, ?_, ?_⟩
          · intro _; omega
          · intro hz; omega
    · rw [_calculateBandwith_within _ _ _ _ _ ht (Int.not_lt.mp he)] at h
      exact absurd h (by simp)

theorem published_rate_bounds_witness :
    ((0 : Int) ≤ 1500 ∧
      (_calculateBandwith
        { _sequenceId := 0, _bandwidthByteCounter := 1500, _bandwidthTimer := some 100 }
        ⟨2100, 2101⟩ true 500).2 = some 1000) ∧
    ∃ windowStart : Int, (some 100 : Option Int) = some windowStart ∧
      2100 - windowStart > 1000 ∧ 2100 - windowStart ≠ 0 ∧
      (1000 : Int) = toInt32 (Int.tdiv
        (toInt64 (toInt64 (1500 + ((500 : Nat) : Int)) * 1000)) (2100 - windowStart)) ∧
      (1000 : Int) ≤ 1500 + ((500 : Nat) : Int) ∧
      (0 < (1500 : Int) + ((500 : Nat) : Int) → (1000 : Int) < 1500 + ((500 : Nat) : Int)) ∧
      ((1500 : Int) + ((500 : Nat) : Int) = 0 → (1000 : Int) = 0) :=
  ⟨⟨by decide, by decide⟩,
   published_rate_bounds
    { _sequenceId := 0, _bandwidthByteCounter := 1500, _bandwidthTimer := some 100 }
    ⟨2100, 2101⟩ true 500 1000 (by decide) (by decide)⟩

/-! ## The bytes carried by each frame -/

theorem take_min_length (l : List UInt8) (m : Nat) : l.take (min l.length m) = l.take m := by
  by_cases h : l.length ≤ m
  · rw [Nat.min_eq_left h, List.take_of_length_le (Nat.le_refl _), List.take_of_length_le h]
  · rw [Nat.min_eq_right (Nat.le_of_lt (Nat.not_le.mp h))]

/-- The valid bytes of the dispatched frames, frame by frame. -/
theorem whileLoop_payloads (sequenceId : Nat) (vehicles : List (Option Vehicle))
    (data : List UInt8) :
    ∀ (n : Nat) (s : LoopState), data.length - s.start = n →
      (whileLoop sequenceId vehicles data s).2.map (fun d => payload d.message) =
        (List.range (frameCount (data.length - s.start))).map
          (fun k => (data.drop (s.start + k * maxMessageLength)).take maxMessageLength) := by
  intro n
  induction n using Nat.strong_induction_on with
  | _ n ih =>
    intro s hn
    by_cases h : s.start < data.length
    · rw [whileLoop_step _ _ _ _ h, ← frameCount_step _ _ h, List.range_succ_eq_map]
      simp only [List.map_cons, List.map_map]
      rw [ih _ _ _ rfl, payload_step]
      · congr 1
        · have hl : data.length - s.start = (data.drop s.start).length := by
            rw [List.length_drop]
          rw [hl, take_min_length, Nat.zero_mul, Nat.add_zero]
        · apply List.map_congr_left
          intro k hk
          rw [List.mem_range] at hk
          have hfull : min (data.length - s.start) maxMessageLength = maxMessageLength := by
            simp only [frameCount, maxMessageLength,
              MAVLINK_MSG_GPS_RTCM_DATA_FIELD_DATA_LEN] at hk ⊢
            omega
          simp only [Function.comp, hfull]
          have he : s.start + maxMessageLength + k * maxMessageLength =
              s.start + (k + 1) * maxMessageLength := by
            rw [Nat.add_mul, Nat.one_mul]
            omega
          rw [he]
      · simp only [maxMessageLength, MAVLINK_MSG_GPS_RTCM_DATA_FIELD_DATA_LEN]
        omega
    · rw [whileLoop_done _ _ _ _ h]
      have : data.length - s.start = 0 := by omega
      rw [this, frameCount_zero]
      rfl

theorem frames_loop_payloads (seqBits : Nat) (self : RTCMMavlink) (now : Clock)
    (rtkFactGroup : Bool) (vehicles : List (Option Vehicle)) (data : List UInt8)
    (h : maxMessageLength ≤ data.length) :
    (RTCMDataUpdate seqBits self now rtkFactGroup vehicles data).frames.map payload =
      (List.range (frameCount data.length)).map
        (fun k => (data.drop (k * maxMessageLength)).take maxMessageLength) := by
  rw [frames_loop _ _ _ _ _ _ h, List.map_map]
  have h2 := whileLoop_payloads self._sequenceId vehicles data _
    { fragmentId := 0, start := 0, gpsRtcmData := gpsRtcmDataInit } rfl
  simp only [Nat.zero_add, Nat.sub_zero] at h2
  exact h2

/-- The bytes at offsets `[i * 180, min ((i + 1) * 180) len)` of the blob. -/
theorem slice_eq (data : List UInt8) (i : Nat) :
    (data.take (min ((i + 1) * maxMessageLength) data.length)).drop (i * maxMessageLength) =
      (data.drop (i * maxMessageLength)).take maxMessageLength := by
  rw [List.drop_take]
  have hl : min ((i + 1) * maxMessageLength) data.length - i * maxMessageLength =
      min (data.drop (i * maxMessageLength)).length maxMessageLength := by
    rw [List.length_drop, Nat.add_mul, Nat.one_mul]
    omega
  rw [hl, take_min_length]

/-- C15: for every blob of at least `maxMessageLength` bytes, emitted as `n`
frames, the frame of index `i` carries exactly the blob bytes at offsets
`[i * MAX, min ((i + 1) * MAX) len)` and its length field is their number;
every frame but the last has length `MAX`, the last has length
`len - (n - 1) * MAX`, which lies in `1..MAX`; every length is at most the
capacity, and the offset of each frame lies inside the blob and strictly
below that of the next frame. -/
theorem frame_contents (seqBits : Nat) (self : RTCMMavlink) (now : Clock)
    (rtkFactGroup : Bool) (vehicles : List (Option Vehicle)) (data : List UInt8) (i : Nat)
    (h : maxMessageLength ≤ data.length)
    (hi : i < (RTCMDataUpdate seqBits self now rtkFactGroup vehicles data).frames.length) :
    ((RTCMDataUpdate seqBits self now rtkFactGroup vehicles data).frames[i]?).map payload =
      some ((data.take (min ((i + 1) * maxMessageLength) data.length)).drop
        (i * maxMessageLength)) ∧
    ((RTCMDataUpdate seqBits self now rtkFactGroup vehicles data).frames[i]?).map
        (fun m => m.len) =
      some (min ((i + 1) * maxMessageLength) data.length - i * maxMessageLength) ∧
    (i + 1 < (RTCMDataUpdate seqBits self now rtkFactGroup vehicles data).frames.length →
      ((RTCMDataUpdate seqBits self now rtkFactGroup vehicles data).frames[i]?).map
        (fun m => m.len) = some maxMessageLength) ∧
    (i + 1 = (RTCMDataUpdate seqBits self now rtkFactGroup vehicles data).frames.length →
      ((RTCMDataUpdate seqBits self now rtkFactGroup vehicles data).frames[i]?).map
        (fun m => m.len) = some (data.length - i * maxMessageLength) ∧
      1 ≤ data.length - i * maxMessageLength ∧
      data.length - i * maxMessageLength ≤ maxMessageLength) ∧
    1 ≤ min ((i + 1) * maxMessageLength) data.length - i * maxMessageLength ∧
    min ((i + 1) * maxMessageLength) data.length - i * maxMessageLength ≤ maxMessageLength ∧
    i * maxMessageLength < data.length ∧
    i * maxMessageLength < (i + 1) * maxMessageLength := by
  rw [frames_loop_length _ _ _ _ _ _ h] at hi ⊢
  have hlen : ((RTCMDataUpdate seqBits self now rtkFactGroup vehicles data).frames[i]?).map
      (fun m => m.len) = some (min (data.length - i * maxMessageLength) maxMessageLength) := by
    rw [← List.getElem?_map, frames_loop_len _ _ _ _ _ _ h, List.getElem?_map,
      List.getElem?_range hi]
    rfl
  have hpay : ((RTCMDataUpdate seqBits self now rtkFactGroup vehicles data).frames[i]?).map
      payload = some ((data.drop (i * maxMessageLength)).take maxMessageLength) := by
    rw [← List.getElem?_map, frames_loop_payloads _ _ _ _ _ _ h, List.getElem?_map,
      List.getElem?_range hi]
    rfl
  rw [hlen, hpay, slice_eq]
  simp only [frameCount, maxMessageLength, MAVLINK_MSG_GPS_RTCM_DATA_FIELD_DATA_LEN,
    Option.some.injEq] at hi h ⊢
  refine ⟨trivial, ?_, ?_, ?_, ?_, ?_, ?_, ?_⟩
  · omega
  · intro _; omega
  · intro _; omega
  · omega
  · omega
  · omega
  · omega

theorem frame_contents_witness :
    (maxMessageLength ≤ (List.replicate 450 (7 : UInt8)).length ∧
      2 < (RTCMDataUpdate 8
        { _sequenceId := 0, _bandwidthByteCounter := 0, _bandwidthTimer := some 0 }
        ⟨0, 0⟩ true [] (List.replicate 450 7)).frames.length) ∧
    ((RTCMDataUpdate 8
        { _sequenceId := 0, _bandwidthByteCounter := 0, _bandwidthTimer := some 0 }
        ⟨0, 0⟩ true [] (List.replicate 450 7)).frames[2]?).map (fun m => m.len) =
      some (min ((2 + 1) * maxMessageLength) (List.replicate 450 (7 : UInt8)).length -
        2 * maxMessageLength) :=
  have hge : maxMessageLength ≤ (List.replicate 450 (7 : UInt8)).length := by
    rw [List.length_replicate]; decide
  have hi : 2 < (RTCMDataUpdate 8
      { _sequenceId := 0, _bandwidthByteCounter := 0, _bandwidthTimer := some 0 }
      ⟨0, 0⟩ true [] (List.replicate 450 7)).frames.length := by
    rw [frames_loop_length _ _ _ _ _ _ hge, List.length_replicate]
    decide
  ⟨⟨hge, hi⟩,
   (frame_contents 8
    { _sequenceId := 0, _bandwidthByteCounter := 0, _bandwidthTimer := some 0 }
    ⟨0, 0⟩ true [] (List.replicate 450 7) 2 hge hi).2.1⟩

/-! ## Sends of a whole blob -/

theorem _sendMessageToVehicle_eq_sendLoop (vehicles : List (Option Vehicle))
    (data : mavlink_gps_rtcm_data_t) :
    _sendMessageToVehicle vehicles data = sendLoop data 0 vehicles := by
  cases vehicles with
  | nil => rfl
  | cons v rest => simp [_sendMessageToVehicle]

/-- Every dispatch of the loop holds the sends of its own frame. -/
theorem whileLoop_sends (sequenceId : Nat) (vehicles : List (Option Vehicle))
    (data : List UInt8) :
    ∀ (n : Nat) (s : LoopState), data.length - s.start = n →
      (whileLoop sequenceId vehicles data s).2.map Dispatch.sends =
        (whileLoop sequenceId vehicles data s).2.map
          (fun d => _sendMessageToVehicle vehicles d.message) := by
  intro n
  induction n using Nat.strong_induction_on with
  | _ n ih =>
    intro s hn
    by_cases h : s.start < data.length
    · rw [whileLoop_step _ _ _ _ h]
      simp only [List.map_cons]
      rw [ih _ _ _ rfl]
      simp only [maxMessageLength, MAVLINK_MSG_GPS_RTCM_DATA_FIELD_DATA_LEN]
      omega
    · rw [whileLoop_done _ _ _ _ h]
      rfl

theorem RTCMDataUpdate_sends (seqBits : Nat) (self : RTCMMavlink) (now : Clock)
    (rtkFactGroup : Bool) (vehicles : List (Option Vehicle)) (data : List UInt8) :
    (RTCMDataUpdate seqBits self now rtkFactGroup vehicles data).sends =
      ((RTCMDataUpdate seqBits self now rtkFactGroup vehicles data).frames.map
        (fun m => _sendMessageToVehicle vehicles m)).flatten := by
  by_cases h : data.length < maxMessageLength
  · simp only [Update.sends, Update.frames, RTCMDataUpdate, h, if_true, List.map_cons,
      List.map_nil]
  · simp only [Update.sends, Update.frames, RTCMDataUpdate, h, if_false, List.map_map]
    rw [whileLoop_sends _ _ _ _ _ rfl]
    rfl

theorem sends_length (vehicles : List (Option Vehicle))
    (frames : List mavlink_gps_rtcm_data_t) :
    ((frames.map (fun m => _sendMessageToVehicle vehicles m)).flatten).length =
      frames.length * vehicles.countP resolved := by
  induction frames with
  | nil => simp
  | cons m rest ih =>
    simp only [List.map_cons, List.flatten_cons, List.length_append, List.length_cons, ih]
    rw [_sendMessageToVehicle_eq_sendLoop, sendLoop_length, Nat.succ_mul, Nat.add_comm]

theorem sendLoop_index_ge (data : mavlink_gps_rtcm_data_t) (vehicles : List (Option Vehicle)) :
    ∀ (i : Nat) (s : Send), s ∈ sendLoop data i vehicles → i ≤ s.index := by
  induction vehicles with
  | nil => intro i s hs; simp [sendLoop] at hs
  | cons v rest ih =>
    intro i s hs
    cases v with
    | none =>
      simp only [sendLoop] at hs
      exact Nat.le_of_succ_le (ih _ _ hs)
    | some vehicle =>
      cases hl : vehicle.primaryLink with
      | none =>
        simp only [sendLoop, hl] at hs
        exact Nat.le_of_succ_le (ih _ _ hs)
      | some sharedLink =>
        simp only [sendLoop, hl, List.mem_cons] at hs
        rcases hs with hs | hs
        · rw [hs]
        · exact Nat.le_of_succ_le (ih _ _ hs)

theorem filter_index_nil (data : mavlink_gps_rtcm_data_t) (vehicles : List (Option Vehicle))
    (i j : Nat) (h : j < i) :
    (sendLoop data i vehicles).filter (fun s => decide (s.index = j)) = [] := by
  rw [List.filter_eq_nil_iff]
  intro s hs
  have := sendLoop_index_ge data vehicles i s hs
  simp only [decide_eq_true_eq]
  omega

/-- The sends of one frame to the entry at position `j`, when it resolves. -/
theorem sendLoop_filter_index (data : mavlink_gps_rtcm_data_t)
    (vehicles : List (Option Vehicle)) :
    ∀ (i j : Nat) (vehicle : Vehicle) (sharedLink : LinkInterface),
      vehicles[j]? = some (some vehicle) → vehicle.primaryLink = some sharedLink →
      (sendLoop data i vehicles).filter (fun s => decide (s.index = i + j)) =
        [{ index := i + j, vehicle := vehicle, link := sharedLink, message := data }] := by
  induction vehicles with
  | nil => intro i j vehicle sharedLink hj; simp at hj
  | cons v rest ih =>
    intro i j vehicle sharedLink hj hl
    cases j with
    | zero =>
      simp only [List.getElem?_cons_zero, Option.some.injEq] at hj
      subst hj
      simp only [sendLoop, hl, Nat.add_zero, List.filter_cons, decide_True, if_true]
      rw [filter_index_nil data rest (i + 1) i (Nat.lt_succ_self i)]
    | succ j =>
      simp only [List.getElem?_cons_succ] at hj
      have hrest := ih (i + 1) j vehicle sharedLink hj hl
      have hidx : i + 1 + j = i + (j + 1) := by omega
      rw [hidx] at hrest
      cases v with
      | none => simpa only [sendLoop] using hrest
      | some vehicle0 =>
        cases hl0 : vehicle0.primaryLink with
        | none => simpa only [sendLoop, hl0] using hrest
        | some sharedLink0 =>
          simp only [sendLoop, hl0, List.filter_cons]
          have hne : ¬ (i = i + (j + 1)) := by omega
          simp only [hne, decide_False, Bool.false_eq_true, if_false]
          exact hrest

theorem sends_filter_index (vehicles : List (Option Vehicle)) (j : Nat) (vehicle : Vehicle)
    (sharedLink : LinkInterface) (hj : vehicles[j]? = some (some vehicle))
    (hl : vehicle.primaryLink = some sharedLink) (frames : List mavlink_gps_rtcm_data_t) :
    ((frames.map (fun m => _sendMessageToVehicle vehicles m)).flatten).filter
        (fun s => decide (s.index = j)) =
      frames.map (fun m =>
        { index := j, vehicle := vehicle, link := sharedLink, message := m }) := by
  induction frames with
  | nil => rfl
  | cons m rest ih =>
    simp only [List.map_cons, List.flatten_cons, List.filter_append, ih]
    have h0 := sendLoop_filter_index m vehicles 0 j vehicle sharedLink hj hl
    simp only [Nat.zero_add] at h0
    rw [_sendMessageToVehicle_eq_sendLoop, h0]
    rfl

/-- C18: for every blob and every vehicle list (the same during the call),
the sends of `RTCMDataUpdate` are, frame after frame in emission order, the
sends of the dispatch of that frame over the list; with `n` frames and `D`
resolved entries there are exactly `n * D` sends; and the sends to a resolved
entry, in the order they are made, carry the `n` frames in emission order,
each once. -/
theorem sends_frame_major (seqBits : Nat) (self : RTCMMavlink) (now : Clock)
    (rtkFactGroup : Bool) (vehicles : List (Option Vehicle)) (data : List UInt8) :
    (RTCMDataUpdate seqBits self now rtkFactGroup vehicles data).sends =
      ((RTCMDataUpdate seqBits self now rtkFactGroup vehicles data).frames.map
        (fun m => _sendMessageToVehicle vehicles m)).flatten ∧
    (RTCMDataUpdate seqBits self now rtkFactGroup vehicles data).sends.length =
      (RTCMDataUpdate seqBits self now rtkFactGroup vehicles data).frames.length *
        vehicles.countP resolved ∧
    (∀ (j : Nat) (vehicle : Vehicle) (sharedLink : LinkInterface),
      vehicles[j]? = some (some vehicle) → vehicle.primaryLink = some sharedLink →
      (RTCMDataUpdate seqBits self now rtkFactGroup vehicles data).sends.filter
          (fun s => decide (s.index = j)) =
        (RTCMDataUpdate seqBits self now rtkFactGroup vehicles data).frames.map
          (fun m => { index := j, vehicle := vehicle, link := sharedLink, message := m })) := by
  refine ⟨RTCMDataUpdate_sends _ _ _ _ _ _, ?_, ?_⟩
  · rw [RTCMDataUpdate_sends, sends_length]
  · intro j vehicle sharedLink hj hl
    rw [RTCMDataUpdate_sends, sends_filter_index vehicles j vehicle sharedLink hj hl]

/-! ## The payload buffer beyond the valid bytes -/

theorem memcpy_length (buf src : List UInt8) (n : Nat) (hb : buf.length = maxMessageLength)
    (hs : n ≤ src.length) (hn : n ≤ maxMessageLength) :
    (memcpy buf src n).length = maxMessageLength := by
  simp only [memcpy, List.length_append, List.length_take, List.length_drop, hb]
  omega

theorem memcpy_full (buf src : List UInt8) (hb : buf.length = maxMessageLength) :
    memcpy buf src maxMessageLength = src.take maxMessageLength := by
  simp only [memcpy]
  rw [List.drop_eq_nil_of_le (Nat.le_of_eq hb), List.append_nil]

/-- The whole payload buffer of each dispatched frame: the buffer of the
frame before it (the buffer at loop entry for the first), overwritten from
index 0 by the bytes of this frame. -/
theorem whileLoop_data (sequenceId : Nat) (vehicles : List (Option Vehicle))
    (data : List UInt8) :
    ∀ (n : Nat) (s : LoopState), data.length - s.start = n →
      s.gpsRtcmData.data.length = maxMessageLength →
      (whileLoop sequenceId vehicles data s).2.map (fun d => d.message.data) =
        (List.range (frameCount (data.length - s.start))).map
          (fun k => memcpy
            (if k = 0 then s.gpsRtcmData.data
             else (data.drop (s.start + (k - 1) * maxMessageLength)).take maxMessageLength)
            (data.drop (s.start + k * maxMessageLength))
            (min (data.length - (s.start + k * maxMessageLength)) maxMessageLength)) := by
  intro n
  induction n using Nat.strong_induction_on with
  | _ n ih =>
    intro s hn hb
    by_cases h : s.start < data.length
    · rw [whileLoop_step _ _ _ _ h, ← frameCount_step _ _ h, List.range_succ_eq_map]
      simp only [List.map_cons, List.map_map]
      rw [ih _ _ _ rfl]
      · congr 1
        · apply List.map_congr_left
          intro k hk
          rw [List.mem_range] at hk
          have hfull : min (data.length - s.start) maxMessageLength = maxMessageLength := by
            simp only [frameCount, maxMessageLength,
              MAVLINK_MSG_GPS_RTCM_DATA_FIELD_DATA_LEN] at hk ⊢
            omega
          simp only [Function.comp, hfull, Nat.succ_ne_zero, if_false, Nat.add_sub_cancel]
          have he : s.start + maxMessageLength + k * maxMessageLength =
              s.start + (k + 1) * maxMessageLength := by
            rw [Nat.add_mul, Nat.one_mul]
            omega
          rw [he]
          congr 1
          cases k with
          | zero =>
            simp only [if_true, Nat.zero_mul, Nat.add_zero]
            exact memcpy_full _ _ hb
          | succ k =>
            simp only [Nat.succ_ne_zero, if_false, Nat.add_sub_cancel]
            have he2 : s.start + maxMessageLength + k * maxMessageLength =
                s.start + (k + 1) * maxMessageLength := by
              rw [Nat.add_mul, Nat.one_mul]
              omega
            rw [he2]
            rfl
      · simp only
        apply memcpy_length _ _ _ hb
        · rw [List.length_drop]
          omega
        · omega
      · simp only [maxMessageLength, MAVLINK_MSG_GPS_RTCM_DATA_FIELD_DATA_LEN]
        omega
    · rw [whileLoop_done _ _ _ _ h]
      have : data.length - s.start = 0 := by omega
      rw [this, frameCount_zero]
      rfl

theorem frames_loop_data (seqBits : Nat) (self : RTCMMavlink) (now : Clock)
    (rtkFactGroup : Bool) (vehicles : List (Option Vehicle)) (data : List UInt8)
    (h : maxMessageLength ≤ data.length) :
    (RTCMDataUpdate seqBits self now rtkFactGroup vehicles data).frames.map
        (fun m => m.data) =
      (List.range (frameCount data.length)).map
        (fun k => memcpy
          (if k = 0 then gpsRtcmDataInit.data
           else (data.drop ((k - 1) * maxMessageLength)).take maxMessageLength)
          (data.drop (k * maxMessageLength))
          (min (data.length - k * maxMessageLength) maxMessageLength)) := by
  rw [frames_loop _ _ _ _ _ _ h, List.map_map]
  have h2 := whileLoop_data self._sequenceId vehicles data _
    { fragmentId := 0, start := 0, gpsRtcmData := gpsRtcmDataInit } rfl
    (by simp [gpsRtcmDataInit])
  simp only [Nat.zero_add, Nat.sub_zero] at h2
  exact h2

theorem frames_loop_data_at (seqBits : Nat) (self : RTCMMavlink) (now : Clock)
    (rtkFactGroup : Bool) (vehicles : List (Option Vehicle)) (data : List UInt8)
    (h : maxMessageLength ≤ data.length) (k : Nat) (hk : k < frameCount data.length) :
    ((RTCMDataUpdate seqBits self now rtkFactGroup vehicles data).frames[k]?).map
        (fun m => m.data) =
      some (memcpy
        (if k = 0 then gpsRtcmDataInit.data
         else (data.drop ((k - 1) * maxMessageLength)).take maxMessageLength)
        (data.drop (k * maxMessageLength))
        (min (data.length - k * maxMessageLength) maxMessageLength)) := by
  rw [← List.getElem?_map, frames_loop_data _ _ _ _ _ _ h, List.getElem?_map,
    List.getElem?_range hk]
  rfl

theorem bind_data_of_map (o : Option mavlink_gps_rtcm_data_t) (buf : List UInt8) (j : Nat)
    (h : o.map (fun m => m.data) = some buf) :
    o.bind (fun m => m.data[j]?) = buf[j]? := by
  cases o with
  | none => simp at h
  | some m =>
    simp only [Option.map_some', Option.some.injEq] at h
    simp only [Option.some_bind, h]

/-- C19: for a blob shorter than `maxMessageLength` the payload buffer of the
single frame is the blob followed by zeros, so every byte at an index at or
after `len` is zero. For a blob of at least `maxMessageLength` bytes whose
last frame is shorter than the capacity, the buffer is reused without
clearing: in the last of the `n` frames every payload byte at an index `j`
at or after the frame's length equals byte `j` of the frame before it, which
is the blob byte at offset `(n - 2) * MAX + j`. -/
theorem unused_payload_bytes (seqBits : Nat) (self : RTCMMavlink) (now : Clock)
    (rtkFactGroup : Bool) (vehicles : List (Option Vehicle)) (data : List UInt8) :
    (data.length < maxMessageLength →
      ∃ m, (RTCMDataUpdate seqBits self now rtkFactGroup vehicles data).frames = [m] ∧
        m.len = data.length ∧
        m.data = data ++ List.replicate (maxMessageLength - data.length) 0 ∧
        ∀ j, data.length ≤ j → j < maxMessageLength → m.data[j]? = some 0) ∧
    (maxMessageLength ≤ data.length → data.length % maxMessageLength ≠ 0 →
      ∀ j,
        data.length -
          ((RTCMDataUpdate seqBits self now rtkFactGroup vehicles data).frames.length - 1) *
            maxMessageLength ≤ j →
        j < maxMessageLength →
        ∃ b,
          data[((RTCMDataUpdate seqBits self now rtkFactGroup vehicles data).frames.length
            - 2) * maxMessageLength + j]? = some b ∧
          ((RTCMDataUpdate seqBits self now rtkFactGroup vehicles data).frames[
            (RTCMDataUpdate seqBits self now rtkFactGroup vehicles data).frames.length
              - 1]?).bind (fun m => m.data[j]?) = some b ∧
          ((RTCMDataUpdate seqBits self now rtkFactGroup vehicles data).frames[
            (RTCMDataUpdate seqBits self now rtkFactGroup vehicles data).frames.length
              - 2]?).bind (fun m => m.data[j]?) = some b) := by
  constructor
  · intro h
    have hdata : memcpy gpsRtcmDataInit.data data data.length =
        data ++ List.replicate (maxMessageLength - data.length) 0 := by
      simp only [memcpy, gpsRtcmDataInit, List.take_length, List.drop_replicate]
    refine ⟨_, frames_single seqBits self now rtkFactGroup vehicles data h, ?_, hdata, ?_⟩
    · simp only [maxMessageLength, MAVLINK_MSG_GPS_RTCM_DATA_FIELD_DATA_LEN] at h
      simp only
      omega
    · intro j hj hjm
      simp only [hdata]
      rw [List.getElem?_append_right hj, List.getElem?_replicate]
      have : j - data.length < maxMessageLength - data.length := by omega
      simp only [this, if_true]
  · intro h hmod j hj hjm
    rw [frames_loop_length _ _ _ _ _ _ h] at hj ⊢
    have hn : 2 ≤ frameCount data.length ∧
        (frameCount data.length - 1) * maxMessageLength < data.length ∧
        data.length < frameCount data.length * maxMessageLength := by
      simp only [frameCount, maxMessageLength, MAVLINK_MSG_GPS_RTCM_DATA_FIELD_DATA_LEN]
        at h hmod ⊢
      omega
    have hidx : (frameCount data.length - 2) * maxMessageLength + j < data.length := by
      simp only [frameCount, maxMessageLength, MAVLINK_MSG_GPS_RTCM_DATA_FIELD_DATA_LEN]
        at h hmod hjm hn ⊢
      omega
    refine ⟨data[(frameCount data.length - 2) * maxMessageLength + j],
      List.getElem?_eq_getElem hidx, ?_, ?_⟩
    · have hlast := frames_loop_data_at seqBits self now rtkFactGroup vehicles data h
        (frameCount data.length - 1) (by omega)
      rw [bind_data_of_map _ _ j hlast]
      have hne : ¬ (frameCount data.length - 1 = 0) := by omega
      have hprev : frameCount data.length - 1 - 1 = frameCount data.length - 2 := by omega
      simp only [hne, if_false, hprev, memcpy]
      have hr : min (data.length - (frameCount data.length - 1) * maxMessageLength)
          maxMessageLength =
          data.length - (frameCount data.length - 1) * maxMessageLength := by
        simp only [frameCount, maxMessageLength, MAVLINK_MSG_GPS_RTCM_DATA_FIELD_DATA_LEN]
          at hn ⊢
        omega
      rw [hr]
      have hlen : (List.take (data.length - (frameCount data.length - 1) * maxMessageLength)
          (List.drop ((frameCount data.length - 1) * maxMessageLength) data)).length =
          data.length - (frameCount data.length - 1) * maxMessageLength := by
        rw [List.length_take, List.length_drop, Nat.min_self]
      rw [List.getElem?_append_right (by rw [hlen]; exact hj), hlen, List.getElem?_drop,
        List.getElem?_take_of_lt (by omega), List.getElem?_drop]
      have hadd : data.length - (frameCount data.length - 1) * maxMessageLength +
          (j - (data.length - (frameCount data.length - 1) * maxMessageLength)) = j := by
        omega
      rw [hadd]
      exact List.getElem?_eq_getElem hidx
    · have hprevf := frames_loop_data_at seqBits self now rtkFactGroup vehicles data h
        (frameCount data.length - 2) (by omega)
      rw [bind_data_of_map _ _ j hprevf]
      simp only [memcpy]
      have hr : min (data.length - (frameCount data.length - 2) * maxMessageLength)
          maxMessageLength = maxMessageLength := by
        simp only [frameCount, maxMessageLength, MAVLINK_MSG_GPS_RTCM_DATA_FIELD_DATA_LEN]
          at hn ⊢
        omega
      rw [hr]
      have hlen : (List.take maxMessageLength
          (List.drop ((frameCount data.length - 2) * maxMessageLength) data)).length =
          maxMessageLength := by
        rw [List.length_take, List.length_drop]
        simp only [frameCount, maxMessageLength, MAVLINK_MSG_GPS_RTCM_DATA_FIELD_DATA_LEN]
          at hn ⊢
        omega
      rw [List.getElem?_append_left (by rw [hlen]; exact hjm),
        List.getElem?_take_of_lt hjm, List.getElem?_drop]
      exact List.getElem?_eq_getElem hidx

theorem unused_payload_bytes_witness :
    (maxMessageLength ≤ (List.replicate 200 (7 : UInt8)).length ∧
      (List.replicate 200 (7 : UInt8)).length % maxMessageLength ≠ 0) ∧
    ((RTCMDataUpdate 8
        { _sequenceId := 0, _bandwidthByteCounter := 0, _bandwidthTimer := some 0 }
        ⟨0, 0⟩ true [] (List.replicate 200 7)).frames[
          (RTCMDataUpdate 8
            { _sequenceId := 0, _bandwidthByteCounter := 0, _bandwidthTimer := some 0 }
            ⟨0, 0⟩ true [] (List.replicate 200 7)).frames.length - 1]?).bind
        (fun m => m.data[100]?) = some 7 := by
  have hge : maxMessageLength ≤ (List.replicate 200 (7 : UInt8)).length := by
    rw [List.length_replicate]; decide
  have hmod : (List.replicate 200 (7 : UInt8)).length % maxMessageLength ≠ 0 := by
    rw [List.length_replicate]; decide
  have hcount : (RTCMDataUpdate 8
      { _sequenceId := 0, _bandwidthByteCounter := 0, _bandwidthTimer := some 0 }
      ⟨0, 0⟩ true [] (List.replicate 200 7)).frames.length = 2 := by
    rw [frames_loop_length _ _ _ _ _ _ hge, List.length_replicate]
    decide
  have hj : (List.replicate 200 (7 : UInt8)).length -
      ((RTCMDataUpdate 8
        { _sequenceId := 0, _bandwidthByteCounter := 0, _bandwidthTimer := some 0 }
        ⟨0, 0⟩ true [] (List.replicate 200 7)).frames.length - 1) * maxMessageLength ≤ 100 := by
    rw [hcount, List.length_replicate]
    decide
  obtain ⟨b, hb1, hb2, _⟩ :=
    (unused_payload_bytes 8
      { _sequenceId := 0, _bandwidthByteCounter := 0, _bandwidthTimer := some 0 }
      ⟨0, 0⟩ true [] (List.replicate 200 7)).2 hge hmod 100 hj (by decide)
  refine ⟨⟨hge, hmod⟩, ?_⟩
  rw [hb2, ← hb1, hcount, List.getElem?_replicate]
  decide

end RTCMMavlink

end GPS
